import Mathlib

/-!
Verification of the tiered prescription-extraction core of the
AI-Powered-Prescription-Analysis-System repository.

The Python sources under `src/extraction/` are shallowly embedded below:

* `Js` with `Js.loads` — the JSON values handled by Python's `json.loads`,
  with numbers as exact rationals;
* `extract_json_from_response` — the two-regex JSON-candidate search shared by
  `LLMExtractor` and `VisionExtractor`;
* the pydantic schema of `schema.py` (`ExtractedPrescription` and its nested
  models) together with its field-by-field validation;
* `LLMExtractor.extract` / `extract_with_retry`, `VisionExtractor.extract_from_image`
  / `analyze_signature_only` with the remote service modelled as an oracle
  (response text or failure, plus the elapsed time of the call);
* `OCRTextParser` medication-line heuristics; the free-text header regexes
  (patient/doctor/hospital names and the like), on which no stated property
  depends, are abstracted as explicit inputs;
* `PrescriptionProcessor.classify_prescription_type`, `needs_vision_enhancement`,
  `process` and `process_batch`.

All functions are executable; floating-point confidences and elapsed times are
modelled as rationals.
-/

namespace DocuVault

/-! ### Character and string helpers (Python semantics) -/

/-- Whitespace class of Python's `\s` (ASCII part, which is what the inputs use). -/
def isSpaceChar (c : Char) : Bool :=
  c == ' ' || c == '\t' || c == '\n' || c == '\r' || c == '\x0b' || c == '\x0c'

def isDigitChar (c : Char) : Bool := 48 ≤ c.toNat && c.toNat ≤ 57

/-- ASCII lowering, the case folding Python's `.lower()`/`re.IGNORECASE`
    performs on the ASCII letters appearing in the repository's patterns. -/
def lowerChar (c : Char) : Char :=
  if 'A' ≤ c && c ≤ 'Z' then Char.ofNat (c.toNat + 32) else c

def lowerStr (s : List Char) : List Char := s.map lowerChar

/-- `needle.isPrefixOf hay` on raw characters. -/
def prefixOf : List Char → List Char → Bool
  | [], _ => true
  | _ :: _, [] => false
  | a :: as, b :: bs => a == b && prefixOf as bs

/-- Python's `needle in hay` substring test. -/
def containsSub (hay needle : List Char) : Bool :=
  match hay with
  | [] => prefixOf needle []
  | _ :: rest => prefixOf needle hay || containsSub rest needle

/-- Drop leading whitespace (`\s*` after a literal, or Python `lstrip`). -/
def dropSpaces (s : List Char) : List Char :=
  s.dropWhile isSpaceChar

/-- Python `str.strip()`. -/
def pyStrip (s : List Char) : List Char :=
  (dropSpaces (dropSpaces s.reverse).reverse)

/-- Maximal leading digit run, with the remainder. -/
def takeDigits (s : List Char) : List Char × List Char :=
  (s.takeWhile isDigitChar, s.dropWhile isDigitChar)

def digitsVal (ds : List Char) : Nat :=
  ds.foldl (fun a c => 10 * a + (c.toNat - 48)) 0

/-! ### JSON values and `json.loads` -/

/-- `10 ^ k`. -/
def pow10 : Nat → Nat
  | 0 => 1
  | k + 1 => 10 * pow10 k

/-- A JSON number, exactly `mantissa × 10 ^ exp10`; `isInt` records whether
    the literal had neither a fraction nor an exponent part, which is what
    `json.loads` turns into a Python `int` rather than a `float`. -/
structure JsonNumber where
  mantissa : Int
  exp10 : Int := 0
  isInt : Bool := true
deriving BEq, Repr, DecidableEq, Inhabited

/-- The exact rational value of a JSON number. -/
def JsonNumber.toRat (n : JsonNumber) : Rat :=
  match n.exp10 with
  | .ofNat k => mkRat (n.mantissa * (pow10 k : Int)) 1
  | .negSucc k => mkRat n.mantissa (pow10 (k + 1))

/-- A JSON value as produced by `json.loads`, numbers kept exact. -/
inductive Js where
  | null
  | bool (b : Bool)
  | num (n : JsonNumber)
  | str (s : String)
  | arr (xs : List Js)
  | obj (fields : List (String × Js))
deriving BEq, Repr, Inhabited

namespace Js

/-- Dictionary lookup; `json.loads` keeps the last binding of a duplicated key,
    so the parser below already deduplicates and plain first-match lookup is used. -/
def getField : Js → String → Option Js
  | .obj fs, k => (fs.find? (fun p => p.1 == k)).map (·.2)
  | _, _ => none

/-- `d[k] = v` on a JSON object (used where the Python code mutates `raw_json`). -/
def setField : Js → String → Js → Js
  | .obj fs, k, v =>
    if (fs.find? (fun p => p.1 == k)).isSome then
      .obj (fs.map (fun p => if p.1 == k then (p.1, v) else p))
    else .obj (fs ++ [(k, v)])
  | j, _, _ => j

def isObj : Js → Bool
  | .obj _ => true
  | _ => false

end Js

def hexDigitVal (c : Char) : Option Nat :=
  let n := c.toNat
  if 48 ≤ n ∧ n ≤ 57 then some (n - 48)
  else if 97 ≤ n ∧ n ≤ 102 then some (n - 87)
  else if 65 ≤ n ∧ n ≤ 70 then some (n - 55)
  else none

/-- One escape character after a backslash in a JSON string literal. -/
def jsonEscape : Char → Option Char
  | '"' => some '"'
  | '\\' => some '\\'
  | '/' => some '/'
  | 'b' => some (Char.ofNat 8)
  | 'f' => some (Char.ofNat 12)
  | 'n' => some (Char.ofNat 10)
  | 'r' => some (Char.ofNat 13)
  | 't' => some (Char.ofNat 9)
  | _ => none

/-- Body of a JSON string literal after the opening quote: returns the decoded
    characters and the input after the closing quote. -/
def jsonStrBody : List Char → Option (List Char × List Char)
  | [] => none
  | '"' :: rest => some ([], rest)
  | '\\' :: 'u' :: a :: b :: c :: d :: rest =>
    match [a, b, c, d].foldlM (fun acc ch => (hexDigitVal ch).map
        (fun v => 16 * acc + v)) 0 with
    | none => none
    | some n =>
      match jsonStrBody rest with
      | none => none
      | some (tail, rem) => some ((Char.ofNat n) :: tail, rem)
  | '\\' :: e :: rest =>
    match jsonEscape e, jsonStrBody rest with
    | some ch, some (tail, rem) => some (ch :: tail, rem)
    | _, _ => none
  | c :: rest =>
    if c.toNat < 32 then none
    else
      match jsonStrBody rest with
      | none => none
      | some (tail, rem) => some (c :: tail, rem)

/-- A JSON number: `-?digits(.digits)?((e|E)(+|-)?digits)?`, exactly valued as
    `mantissa × 10 ^ exp10`. -/
def jsonNum (s : List Char) : Option (JsonNumber × List Char) :=
  let (neg, s₁) := match s with
    | '-' :: r => (true, r)
    | _ => (false, s)
  let (ip, s₂) := takeDigits s₁
  -- JSON forbids empty integer parts and leading zeros ("01")
  if ip.isEmpty || (ip.length > 1 && ip.headD '0' == '0') then none
  else
    let (fr, s₃) := match s₂ with
      | '.' :: r =>
        let (ds, r') := takeDigits r
        if ds.isEmpty then ([], '.' :: r) else (ds, r')
      | _ => ([], s₂)
    -- a bare trailing dot is not valid JSON
    match s₂, fr with
    | '.' :: _, [] => none
    | _, _ =>
      let (hasExp, ex, s₄) :=
        match s₃ with
        | e :: r =>
          if e == 'e' || e == 'E' then
            let (sgn, r₁) := match r with
              | '+' :: r' => ((1 : Int), r')
              | '-' :: r' => ((-1 : Int), r')
              | _ => ((1 : Int), r)
            let (ds, r₂) := takeDigits r₁
            if ds.isEmpty then (false, (0 : Int), s₃)
            else (true, sgn * digitsVal ds, r₂)
          else (false, (0 : Int), s₃)
        | [] => (false, (0 : Int), s₃)
      let mag : Int := digitsVal (ip ++ fr)
      some ({ mantissa := if neg then -mag else mag,
              exp10 := ex - fr.length,
              isInt := fr.isEmpty && !hasExp }, s₄)

mutual

/-- Parse one JSON value; `fuel` only forces termination and is chosen larger
    than any possible number of recursive calls. -/
def jsonVal : Nat → List Char → Option (Js × List Char)
  | 0, _ => none
  | fuel + 1, s =>
    match dropSpaces s with
    | 'n' :: 'u' :: 'l' :: 'l' :: r => some (.null, r)
    | 't' :: 'r' :: 'u' :: 'e' :: r => some (.bool true, r)
    | 'f' :: 'a' :: 'l' :: 's' :: 'e' :: r => some (.bool false, r)
    | '"' :: r => do
      let (cs, rem) ← jsonStrBody r
      some (.str (String.mk cs), rem)
    | '[' :: r =>
      (match dropSpaces r with
       | ']' :: r' => some (.arr [], r')
       | _ => do
         let (xs, rem) ← jsonArrItems fuel r
         some (.arr xs, rem))
    | '{' :: r =>
      (match dropSpaces r with
       | '}' :: r' => some (.obj [], r')
       | _ => do
         let (fs, rem) ← jsonObjItems fuel r
         some (.obj fs, rem))
    | s' => do
      let (q, rem) ← jsonNum s'
      some (.num q, rem)

/-- Comma-separated array elements up to the closing bracket. -/
def jsonArrItems : Nat → List Char → Option (List Js × List Char)
  | 0, _ => none
  | fuel + 1, s => do
    let (v, rem) ← jsonVal fuel s
    match dropSpaces rem with
    | ',' :: r => do
      let (vs, rem') ← jsonArrItems fuel r
      some (v :: vs, rem')
    | ']' :: r => some ([v], r)
    | _ => none

/-- Comma-separated `"key": value` members up to the closing brace; a repeated
    key overwrites the earlier binding, as `json.loads` does. -/
def jsonObjItems : Nat → List Char → Option (List (String × Js) × List Char)
  | 0, _ => none
  | fuel + 1, s =>
    match dropSpaces s with
    | '"' :: r => do
      let (k, rem) ← jsonStrBody r
      match dropSpaces rem with
      | ':' :: r' => do
        let (v, rem') ← jsonVal fuel r'
        match dropSpaces rem' with
        | ',' :: r'' => do
          let (fs, rem'') ← jsonObjItems fuel r''
          -- a later duplicate key overwrites the value but keeps the first position
          match fs.find? (fun p => p.1 == String.mk k) with
          | some p =>
            some ((String.mk k, p.2) :: fs.filter (fun q => ¬ (q.1 == String.mk k)), rem'')
          | none => some ((String.mk k, v) :: fs, rem'')
        | '}' :: r'' => some ([(String.mk k, v)], r'')
        | _ => none
      | _ => none
    | _ => none

end

/-- Python's `json.loads`: a single JSON value with optional surrounding
    whitespace and nothing else.  (The nonstandard `NaN`/`Infinity` literals,
    which have no exact rational value, are outside the model; no candidate in
    any stated property contains them.) -/
def Js.loads (s : String) : Option Js :=
  match jsonVal (2 * s.data.length + 4) s.data with
  | some (v, rem) => if (dropSpaces rem).isEmpty then some v else none
  | none => none

/-! ### The JSON-candidate searches of `extract_json_from_response`

The method (identical in `llm_extractor.py` and `vision_extractor.py`) runs
`re.search` twice:

* pattern A, `three backticks (?:json)? \s* (\x7b.*?\x7d) \s* three backticks`
  with `re.DOTALL`: a fenced code block whose `json` tag is optional, capturing
  the shortest brace-delimited interior that is followed by a closing fence;
* pattern B, `\x7b.*\x7d` with `re.DOTALL`: greedy, i.e. from the first `\x7b`
  to the last `\x7d` of the whole text.

Both are reproduced here with `re.search`'s leftmost-start, then
pattern-order backtracking semantics. -/

def ticks : List Char := '`' :: '`' :: '`' :: []

/-- Does a closing fence (`\s*` then three backticks) start here? -/
def closesFence (s : List Char) : Bool :=
  prefixOf ticks (dropSpaces s)

/-- The lazy `.*?\x7d` of pattern A: consume as little as possible until a
    `\x7d` that is followed by a closing fence; returns the consumed characters
    including that brace. -/
def lazyCapture : List Char → Option (List Char)
  | [] => none
  | '}' :: rest =>
    if closesFence rest then some ['}']
    else (lazyCapture rest).map (fun t => '}' :: t)
  | c :: rest => (lazyCapture rest).map (fun t => c :: t)

/-- After the optional tag: `\s*` then the captured `\x7b.*?\x7d`. -/
def tryFenceOpen (s : List Char) : Option (List Char) :=
  match dropSpaces s with
  | '{' :: rest => (lazyCapture rest).map (fun t => '{' :: t)
  | _ => none

/-- Pattern A at one fence position (`s` is the text after the three opening
    backticks): the greedy `(?:json)?` tries the tagged reading first, then
    backtracks to the untagged one. -/
def tryFenceAt (s : List Char) : Option (List Char) :=
  match (if prefixOf ('j' :: 's' :: 'o' :: 'n' :: []) s
         then tryFenceOpen (s.drop 4) else none) with
  | some cap => some cap
  | none => tryFenceOpen s

/-- `re.search` for pattern A: leftmost opening fence that admits a match. -/
def findFencedBlock : List Char → Option (List Char)
  | [] => none
  | c :: rest =>
    if prefixOf ticks (c :: rest) then
      match tryFenceAt ((c :: rest).drop 3) with
      | some cap => some cap
      | none => findFencedBlock rest
    else findFencedBlock rest

/-- The suffix starting at the first `\x7b`, if any. -/
def firstBraceSuffix : List Char → Option (List Char)
  | [] => none
  | '{' :: rest => some ('{' :: rest)
  | _ :: rest => firstBraceSuffix rest

/-- `re.search` for pattern B: from the first `\x7b` to the last `\x7d` of the
    text.  (If no `\x7d` follows the first `\x7b`, no later `\x7b` can precede
    the globally last `\x7d` either, so there is no match at all.) -/
def findBraceSpan (s : List Char) : Option (List Char) :=
  match firstBraceSuffix s with
  | none => none
  | some suf =>
    match suf with
    | '{' :: tail =>
      let afterDrop := tail.reverse.dropWhile (fun c => !(c == '}'))
      match afterDrop with
      | [] => none
      | _ => some ('{' :: afterDrop.reverse)
    | _ => none

/-- How a response text can fail to yield a JSON object. -/
inductive ExtractErr where
  | noStructuredData
  | jsonDecode
deriving BEq, Repr, DecidableEq

/-- `extract_json_from_response` (`llm_extractor.py:136` = `vision_extractor.py:193`):
    pattern A first; only when pattern A finds no block at all, pattern B; a
    candidate that is found but fails `json.loads` raises a decode error without
    trying the other pattern; when neither pattern matches, the
    `ValueError("No valid JSON found in LLM response")` is raised. -/
def extract_json_from_response (text : String) : Except ExtractErr Js :=
  match findFencedBlock text.data with
  | some cap =>
    match Js.loads (String.mk cap) with
    | some j => .ok j
    | none => .error .jsonDecode
  | none =>
    match findBraceSpan text.data with
    | some cap =>
      match Js.loads (String.mk cap) with
      | some j => .ok j
      | none => .error .jsonDecode
    | none => .error .noStructuredData

/-- Pattern A as the specification words it: the fenced block must carry the
    `json` tag (comparison definition for the routing of the parser; written
    from the spec's words, not from the source). -/
def findFencedBlockTagged : List Char → Option (List Char)
  | [] => none
  | c :: rest =>
    if prefixOf ticks (c :: rest) then
      match (if prefixOf ('j' :: 's' :: 'o' :: 'n' :: []) ((c :: rest).drop 3)
             then tryFenceOpen ((c :: rest).drop 7) else none) with
      | some cap => some cap
      | none => findFencedBlockTagged rest
    else findFencedBlockTagged rest

/-- The structured-response parser exactly as the claim words it: a fenced
    block *tagged as JSON* first, else the brace-delimited span, else
    `NoStructuredDataFound` (comparison definition, from the spec's words). -/
def extractJsonClaimed (text : String) : Except ExtractErr Js :=
  match findFencedBlockTagged text.data with
  | some cap =>
    match Js.loads (String.mk cap) with
    | some j => .ok j
    | none => .error .jsonDecode
  | none =>
    match findBraceSpan text.data with
    | some cap =>
      match Js.loads (String.mk cap) with
      | some j => .ok j
      | none => .error .jsonDecode
    | none => .error .noStructuredData

/-! ### The pydantic schema of `schema.py`

Confidence scores are exact rationals; every `ge=0.0, le=1.0` bound of the
source becomes a range check in the corresponding field validator. -/

/-- `SignatureInfo` (`schema.py:22`). -/
structure SignatureInfo where
  is_present : Bool := false
  signer_name : Option String := none
  signer_title : Option String := none
  location : Option String := none
  is_legible : Option Bool := none
  confidence : Option Rat := none
deriving BEq, Repr, DecidableEq, Inhabited

/-- `MedicationItem` (`schema.py:32`). -/
structure MedicationItem where
  name : String
  dosage : Option String := none
  quantity : Option String := none
  frequency : Option String := none
  duration : Option String := none
  instructions : Option String := none
  is_handwritten : Option Bool := none
deriving BEq, Repr, DecidableEq, Inhabited

/-- `PatientInfo` (`schema.py:43`). -/
structure PatientInfo where
  name : Option String := none
  age : Option String := none
  gender : Option String := none
  address : Option String := none
  phone : Option String := none
  patient_id : Option String := none
deriving BEq, Repr, DecidableEq, Inhabited

/-- `DoctorInfo` (`schema.py:53`). -/
structure DoctorInfo where
  name : Option String := none
  title : Option String := none
  specialty : Option String := none
  license_number : Option String := none
  phone : Option String := none
  signature : Option SignatureInfo := none
deriving BEq, Repr, DecidableEq, Inhabited

/-- `HospitalInfo` (`schema.py:63`). -/
structure HospitalInfo where
  name : Option String := none
  department : Option String := none
  address : Option String := none
  phone : Option String := none
  pharmacy_counter : Option String := none
deriving BEq, Repr, DecidableEq, Inhabited

/-- `HandwritingAnalysis` (`schema.py:72`). -/
structure HandwritingAnalysis where
  has_handwritten_content : Bool := false
  handwritten_sections : List String := []
  ocr_confidence : Option Rat := none
  llm_interpretation : Option String := none
  unclear_text : List String := []
deriving BEq, Repr, DecidableEq, Inhabited

/-- The valid values of the `PrescriptionType` enumeration (`schema.py:14`);
    the value itself is carried as its string, which is how the rest of the
    code compares it. -/
def prescriptionTypeValues : List String :=
  ["handwritten", "printed", "mixed", "digital"]

/-- `ExtractedPrescription` (`schema.py:81`). -/
structure ExtractedPrescription where
  document_type : String := "prescription"
  prescription_type : Option String := none
  prescription_number : Option String := none
  barcode : Option String := none
  issue_date : Option String := none
  patient : PatientInfo := {}
  doctor : DoctorInfo := {}
  hospital : HospitalInfo := {}
  diagnosis : Option String := none
  medications : List MedicationItem := []
  doctor_signature : Option SignatureInfo := none
  handwriting_analysis : Option HandwritingAnalysis := none
  notes : Option String := none
  total_items : Option Int := none
  extraction_method : Option String := none
  confidence_score : Option Rat := none
  ocr_confidence : Option Rat := none
  llm_enhanced : Bool := false
  ocr_text : Option String := none
deriving BEq, Repr, DecidableEq, Inhabited

/-- A pydantic `ValidationError`, carrying the offending field path. -/
inductive SchemaErr where
  | invalid (fieldPath : String)
deriving BEq, Repr, DecidableEq

/-! Field validators (pydantic v1 coercion rules, restricted to the value
shapes JSON can deliver). -/

/-- An optional `str` field: absent and `null` give `None`; integers are
    coerced to their decimal representation as pydantic v1 does. -/
def vOptStr (j : Option Js) (path : String) : Except SchemaErr (Option String) :=
  match j with
  | none => .ok none
  | some .null => .ok none
  | some (.str s) => .ok (some s)
  | some (.num n) =>
    if n.isInt then .ok (some (toString n.mantissa)) else .error (.invalid path)
  | some _ => .error (.invalid path)

/-- A required `str` field with a default: absent gives the default, `null` is
    rejected (the field is not `Optional`). -/
def vStrDefault (j : Option Js) (dflt : String) (path : String) :
    Except SchemaErr String :=
  match j with
  | none => .ok dflt
  | some (.str s) => .ok s
  | some (.num n) =>
    if n.isInt then .ok (toString n.mantissa) else .error (.invalid path)
  | some _ => .error (.invalid path)

/-- A required `str` field with no default (`MedicationItem.name`). -/
def vStrRequired (j : Option Js) (path : String) : Except SchemaErr String :=
  match j with
  | some (.str s) => .ok s
  | some (.num n) =>
    if n.isInt then .ok (toString n.mantissa) else .error (.invalid path)
  | _ => .error (.invalid path)

/-- A bool out of a JSON value, per pydantic v1's `bool` coercions. -/
def coerceBool (v : Js) : Option Bool :=
  match v with
  | .bool b => some b
  | .num n =>
    if n.toRat = 1 then some true
    else if n.toRat = 0 then some false else none
  | .str s =>
    let l := String.mk (lowerStr s.data)
    if l ∈ ["1", "on", "t", "true", "y", "yes"] then some true
    else if l ∈ ["0", "off", "f", "false", "n", "no"] then some false
    else none
  | _ => none

/-- An optional `bool` field. -/
def vOptBool (j : Option Js) (path : String) : Except SchemaErr (Option Bool) :=
  match j with
  | none => .ok none
  | some .null => .ok none
  | some v =>
    match coerceBool v with
    | some b => .ok (some b)
    | none => .error (.invalid path)

/-- A `bool` field with a default: absent gives the default, `null` is rejected. -/
def vBoolDefault (j : Option Js) (dflt : Bool) (path : String) :
    Except SchemaErr Bool :=
  match j with
  | none => .ok dflt
  | some v =>
    match coerceBool v with
    | some b => .ok b
    | none => .error (.invalid path)

/-- The numeric value pydantic v1 coerces a JSON value to for a `float`
    field: numbers directly, bools as 0/1, numeric strings via parsing. -/
def confValue : Js → Option Rat
  | .num n => some n.toRat
  | .bool b => some (if b then 1 else 0)
  | .str s =>
    match Js.loads s with
    | some (.num n) => some n.toRat
    | _ => none
  | _ => none

/-- A confidence field, `Optional[float]` with `ge=0.0, le=1.0`: any numeric
    value (pydantic v1 also coerces bools and numeric strings) is accepted
    exactly when it lies in `[0, 1]`. -/
def vConfidence (j : Option Js) (path : String) : Except SchemaErr (Option Rat) :=
  match j with
  | none => .ok none
  | some .null => .ok none
  | some v =>
    match confValue v with
    | some q => if 0 ≤ q ∧ q ≤ 1 then .ok (some q) else .error (.invalid path)
    | none => .error (.invalid path)

/-- An `Optional[int]` field (`total_items`). -/
def vOptInt (j : Option Js) (path : String) : Except SchemaErr (Option Int) :=
  match j with
  | none => .ok none
  | some .null => .ok none
  | some (.num n) =>
    if n.toRat.den == 1 then .ok (some n.toRat.num) else .error (.invalid path)
  | some (.bool b) => .ok (some (if b then 1 else 0))
  | some (.str s) =>
    match Js.loads s with
    | some (.num n) =>
      if n.toRat.den == 1 then .ok (some n.toRat.num) else .error (.invalid path)
    | _ => .error (.invalid path)
  | some _ => .error (.invalid path)

/-- A `List[str]` field with an empty default. -/
def vListStr (j : Option Js) (path : String) : Except SchemaErr (List String) :=
  match j with
  | none => .ok []
  | some (.arr xs) =>
    xs.foldr (fun x acc => do
      let rest ← acc
      let s ← vStrRequired (some x) path
      pure (s :: rest)) (.ok [])
  | some _ => .error (.invalid path)

/-- `SignatureInfo(**d)` with validation. -/
def SignatureInfo.ofJs (j : Js) (path : String) : Except SchemaErr SignatureInfo := do
  match j with
  | .obj _ =>
    let is_present ← vBoolDefault (j.getField "is_present") false (path ++ ".is_present")
    let signer_name ← vOptStr (j.getField "signer_name") (path ++ ".signer_name")
    let signer_title ← vOptStr (j.getField "signer_title") (path ++ ".signer_title")
    let location ← vOptStr (j.getField "location") (path ++ ".location")
    let is_legible ← vOptBool (j.getField "is_legible") (path ++ ".is_legible")
    let confidence ← vConfidence (j.getField "confidence") (path ++ ".confidence")
    pure { is_present, signer_name, signer_title, location, is_legible, confidence }
  | _ => .error (.invalid path)

/-- `MedicationItem(**d)` with validation. -/
def MedicationItem.ofJs (j : Js) (path : String) : Except SchemaErr MedicationItem := do
  match j with
  | .obj _ =>
    let name ← vStrRequired (j.getField "name") (path ++ ".name")
    let dosage ← vOptStr (j.getField "dosage") (path ++ ".dosage")
    let quantity ← vOptStr (j.getField "quantity") (path ++ ".quantity")
    let frequency ← vOptStr (j.getField "frequency") (path ++ ".frequency")
    let duration ← vOptStr (j.getField "duration") (path ++ ".duration")
    let instructions ← vOptStr (j.getField "instructions") (path ++ ".instructions")
    let is_handwritten ← vOptBool (j.getField "is_handwritten") (path ++ ".is_handwritten")
    pure { name, dosage, quantity, frequency, duration, instructions, is_handwritten }
  | _ => .error (.invalid path)

/-- `PatientInfo(**d)` with validation. -/
def PatientInfo.ofJs (j : Js) (path : String) : Except SchemaErr PatientInfo := do
  match j with
  | .obj _ =>
    let name ← vOptStr (j.getField "name") (path ++ ".name")
    let age ← vOptStr (j.getField "age") (path ++ ".age")
    let gender ← vOptStr (j.getField "gender") (path ++ ".gender")
    let address ← vOptStr (j.getField "address") (path ++ ".address")
    let phone ← vOptStr (j.getField "phone") (path ++ ".phone")
    let patient_id ← vOptStr (j.getField "patient_id") (path ++ ".patient_id")
    pure { name, age, gender, address, phone, patient_id }
  | _ => .error (.invalid path)

/-- An `Optional[SignatureInfo]` field. -/
def vOptSignatureInfo (j : Option Js) (path : String) :
    Except SchemaErr (Option SignatureInfo) :=
  match j with
  | none => .ok none
  | some .null => .ok none
  | some v => (SignatureInfo.ofJs v path).map some

/-- `DoctorInfo(**d)` with validation. -/
def DoctorInfo.ofJs (j : Js) (path : String) : Except SchemaErr DoctorInfo := do
  match j with
  | .obj _ =>
    let name ← vOptStr (j.getField "name") (path ++ ".name")
    let title ← vOptStr (j.getField "title") (path ++ ".title")
    let specialty ← vOptStr (j.getField "specialty") (path ++ ".specialty")
    let license_number ← vOptStr (j.getField "license_number") (path ++ ".license_number")
    let phone ← vOptStr (j.getField "phone") (path ++ ".phone")
    let signature ← vOptSignatureInfo (j.getField "signature") (path ++ ".signature")
    pure { name, title, specialty, license_number, phone, signature }
  | _ => .error (.invalid path)

/-- `HospitalInfo(**d)` with validation. -/
def HospitalInfo.ofJs (j : Js) (path : String) : Except SchemaErr HospitalInfo := do
  match j with
  | .obj _ =>
    let name ← vOptStr (j.getField "name") (path ++ ".name")
    let department ← vOptStr (j.getField "department") (path ++ ".department")
    let address ← vOptStr (j.getField "address") (path ++ ".address")
    let phone ← vOptStr (j.getField "phone") (path ++ ".phone")
    let pharmacy_counter ← vOptStr (j.getField "pharmacy_counter") (path ++ ".pharmacy_counter")
    pure { name, department, address, phone, pharmacy_counter }
  | _ => .error (.invalid path)

/-- `HandwritingAnalysis(**d)` with validation. -/
def HandwritingAnalysis.ofJs (j : Js) (path : String) :
    Except SchemaErr HandwritingAnalysis := do
  match j with
  | .obj _ =>
    let hand ← vBoolDefault (j.getField "has_handwritten_content") false
      (path ++ ".has_handwritten_content")
    let sections ← vListStr (j.getField "handwritten_sections")
      (path ++ ".handwritten_sections")
    let conf ← vConfidence (j.getField "ocr_confidence") (path ++ ".ocr_confidence")
    let interp ← vOptStr (j.getField "llm_interpretation") (path ++ ".llm_interpretation")
    let unclear ← vListStr (j.getField "unclear_text") (path ++ ".unclear_text")
    pure { has_handwritten_content := hand, handwritten_sections := sections,
           ocr_confidence := conf, llm_interpretation := interp,
           unclear_text := unclear }
  | _ => .error (.invalid path)

/-- The `Optional[PrescriptionType]` enumeration field. -/
def vPrescriptionType (j : Option Js) (path : String) :
    Except SchemaErr (Option String) :=
  match j with
  | none => .ok none
  | some .null => .ok none
  | some (.str s) =>
    if s ∈ prescriptionTypeValues then .ok (some s) else .error (.invalid path)
  | some _ => .error (.invalid path)

/-- The `patient` field: absent gives the default-constructed `PatientInfo`. -/
def vPatient (j : Option Js) : Except SchemaErr PatientInfo :=
  match j with
  | none => .ok {}
  | some v => PatientInfo.ofJs v "patient"

/-- The `doctor` field: absent gives the default-constructed `DoctorInfo`. -/
def vDoctor (j : Option Js) : Except SchemaErr DoctorInfo :=
  match j with
  | none => .ok {}
  | some v => DoctorInfo.ofJs v "doctor"

/-- The `hospital` field: absent gives the default-constructed `HospitalInfo`. -/
def vHospital (j : Option Js) : Except SchemaErr HospitalInfo :=
  match j with
  | none => .ok {}
  | some v => HospitalInfo.ofJs v "hospital"

/-- The `medications` field, `List[MedicationItem]` with an empty default:
    `null` is rejected (the field is not `Optional`), a list is validated
    item by item. -/
def vMedications (j : Option Js) : Except SchemaErr (List MedicationItem) :=
  match j with
  | none => .ok []
  | some (.arr xs) =>
    xs.foldr (fun x acc => do
      let rest ← acc
      let m ← MedicationItem.ofJs x "medications"
      pure (m :: rest)) (.ok [])
  | some _ => .error (.invalid "medications")

/-- An `Optional[HandwritingAnalysis]` field. -/
def vOptHandwriting (j : Option Js) (path : String) :
    Except SchemaErr (Option HandwritingAnalysis) :=
  match j with
  | none => .ok none
  | some .null => .ok none
  | some v => (HandwritingAnalysis.ofJs v path).map some

/-- `ExtractedPrescription(**raw_json)`: the whole-record validation, field by
    field; extra keys are ignored, as pydantic does by default. -/
def ExtractedPrescription.ofJs (j : Js) : Except SchemaErr ExtractedPrescription := do
  match j with
  | .obj _ =>
    let document_type ← vStrDefault (j.getField "document_type") "prescription" "document_type"
    let prescription_type ← vPrescriptionType (j.getField "prescription_type") "prescription_type"
    let prescription_number ← vOptStr (j.getField "prescription_number") "prescription_number"
    let barcode ← vOptStr (j.getField "barcode") "barcode"
    let issue_date ← vOptStr (j.getField "issue_date") "issue_date"
    let patient ← vPatient (j.getField "patient")
    let doctor ← vDoctor (j.getField "doctor")
    let hospital ← vHospital (j.getField "hospital")
    let diagnosis ← vOptStr (j.getField "diagnosis") "diagnosis"
    let medications ← vMedications (j.getField "medications")
    let doctor_signature ←
      vOptSignatureInfo (j.getField "doctor_signature") "doctor_signature"
    let handwriting_analysis ←
      vOptHandwriting (j.getField "handwriting_analysis") "handwriting_analysis"
    let notes ← vOptStr (j.getField "notes") "notes"
    let total_items ← vOptInt (j.getField "total_items") "total_items"
    let extraction_method ← vOptStr (j.getField "extraction_method") "extraction_method"
    let confidence_score ← vConfidence (j.getField "confidence_score") "confidence_score"
    let ocr_confidence ← vConfidence (j.getField "ocr_confidence") "ocr_confidence"
    let llm_enhanced ← vBoolDefault (j.getField "llm_enhanced") false "llm_enhanced"
    let ocr_text ← vOptStr (j.getField "ocr_text") "ocr_text"
    pure { document_type, prescription_type, prescription_number, barcode,
           issue_date, patient, doctor, hospital, diagnosis, medications,
           doctor_signature, handwriting_analysis, notes, total_items,
           extraction_method, confidence_score, ocr_confidence, llm_enhanced,
           ocr_text }
  | _ => .error (.invalid "__root__")

/-! ### `LLMExtractor` (`llm_extractor.py`) and `VisionExtractor`
(`vision_extractor.py`)

A remote call is modelled by an oracle: either the raised exception
(network/service failure, or for vision a failing image encode) or the
response text, together with the elapsed wall time of the attempt. -/

/-- One remote attempt as observed by the extractor: the outcome of the
    service call and its elapsed time. -/
structure AttemptOutcome where
  response : Except Unit String
  elapsed : Rat := 0
deriving Repr, Inhabited

/-- The minimal record `ExtractedPrescription(document_type="unknown")` that
    `LLMExtractor.extract` returns on any failure. -/
def unknownSentinel : ExtractedPrescription := { document_type := "unknown" }

/-- `LLMExtractor.extract` (`llm_extractor.py:194`): build the prompt, call the
    service, extract and validate the JSON; any raised error — service call,
    JSON search/decode, or schema validation — is caught and degrades to the
    `"unknown"` sentinel.  The returned time is the elapsed time of the attempt
    in every branch. -/
def LLMExtractor.extract (o : AttemptOutcome) : ExtractedPrescription × Rat :=
  match o.response with
  | .error _ => (unknownSentinel, o.elapsed)
  | .ok text =>
    match extract_json_from_response text with
    | .error _ => (unknownSentinel, o.elapsed)
    | .ok j =>
      match ExtractedPrescription.ofJs j with
      | .error _ => (unknownSentinel, o.elapsed)
      | .ok doc => (doc, o.elapsed)

/-- The loop of `LLMExtractor.extract_with_retry` (`llm_extractor.py:268`):
    `i` is the index of the next attempt, the fuel is the number of loop
    iterations still allowed (`max_retries + 1 - i`), `total` the time
    accumulated so far.  Returns the result pair of the Python function and,
    as instrumentation, the number of attempts actually made. -/
def retryGo (attempts : Nat → AttemptOutcome) :
    Nat → Nat → Rat → (ExtractedPrescription × Rat) × Nat
  | _, 0, total => ((unknownSentinel, total), 0)
  | i, fuel + 1, total =>
    let (doc, t) := LLMExtractor.extract (attempts i)
    let total' := total + t
    if doc.document_type ≠ "unknown" then ((doc, total'), 1)
    else
      let ((d, tt), n) := retryGo attempts (i + 1) fuel total'
      ((d, tt), n + 1)

/-- `LLMExtractor.extract_with_retry` (`llm_extractor.py:248`): up to
    `max_retries + 1` attempts, stopping at the first one whose
    `document_type` is resolved; if every attempt fails, the `"unknown"`
    sentinel with the accumulated time. -/
def LLMExtractor.extract_with_retry (attempts : Nat → AttemptOutcome)
    (max_retries : Nat) : ExtractedPrescription × Rat :=
  (retryGo attempts 0 (max_retries + 1) 0).1

/-- Number of attempts `extract_with_retry` actually makes. -/
def LLMExtractor.retryAttemptsUsed (attempts : Nat → AttemptOutcome)
    (max_retries : Nat) : Nat :=
  (retryGo attempts 0 (max_retries + 1) 0).2

/-- The record `VisionExtractor.extract_from_image` returns when any step of
    the single vision attempt fails (`vision_extractor.py:298-314`): note its
    `document_type` is the resolved value `"prescription"`. -/
def visionFailureDoc : ExtractedPrescription :=
  { document_type := "prescription", extraction_method := some "llm_vision",
    llm_enhanced := true }

/-- `VisionExtractor.extract_from_image` (`vision_extractor.py:215`): a single
    vision attempt; on success the raw JSON is stamped with
    `extraction_method = "llm_vision"`, `llm_enhanced = true` and — only when
    the passed OCR confidence is truthy, i.e. neither `None` nor `0.0` — with
    `ocr_confidence`, then validated; every failure degrades to
    `visionFailureDoc`. -/
def VisionExtractor.extract_from_image (o : AttemptOutcome)
    (ocr_confidence : Option Rat) : ExtractedPrescription × Rat :=
  match o.response with
  | .error _ => (visionFailureDoc, o.elapsed)
  | .ok text =>
    match extract_json_from_response text with
    | .error _ => (visionFailureDoc, o.elapsed)
    | .ok j =>
      let j := (j.setField "extraction_method" (.str "llm_vision")).setField
        "llm_enhanced" (.bool true)
      match ExtractedPrescription.ofJs j with
      | .error _ => (visionFailureDoc, o.elapsed)
      | .ok doc =>
        -- `raw_json["ocr_confidence"] = ocr_confidence` happens before the
        -- pydantic call; placing the same range-checked override after the
        -- field-wise validation is observationally the same: the injected
        -- value replaces whatever the response carried, and an out-of-range
        -- injected value fails the validation and degrades to the failure
        -- record.  `if ocr_confidence:` skips `None` and the falsy `0.0`.
        match ocr_confidence with
        | some q =>
          if q ≠ 0 then
            if 0 ≤ q ∧ q ≤ 1 then ({ doc with ocr_confidence := some q }, o.elapsed)
            else (visionFailureDoc, o.elapsed)
          else (doc, o.elapsed)
        | none => (doc, o.elapsed)

/-- `VisionExtractor.analyze_signature_only` (`vision_extractor.py:316`): a
    narrowly-scoped signature call; on any failure it returns
    `SignatureInfo(is_present=False)` with every other field unset, never
    raising. -/
def VisionExtractor.analyze_signature_only (o : AttemptOutcome) :
    SignatureInfo × Rat :=
  match o.response with
  | .error _ => ({ is_present := false }, o.elapsed)
  | .ok text =>
    match extract_json_from_response text with
    | .error _ => ({ is_present := false }, o.elapsed)
    | .ok j =>
      match SignatureInfo.ofJs j "signature" with
      | .error _ => ({ is_present := false }, o.elapsed)
      | .ok s => (s, o.elapsed)

/-! ### `OCRTextParser` (`ocr_parser.py`): the no-LLM fallback structurer

The medication-line heuristics are reproduced exactly (each `re` pattern as a
character-level function with `re.search`'s leftmost-first semantics and
ASCII-level `IGNORECASE`).  The header regexes — patient/doctor/hospital
names, diagnosis, date, prescription number, all produced by
`_find_first_match` over free text and used by no stated property — are
abstracted as explicit inputs. -/

/-- `re.sub(r"^[\d]+[.\)]\s*", "", line)`: strip a leading enumerator. -/
def stripEnumMarker (s : List Char) : List Char :=
  let (ds, r) := takeDigits s
  if ds.isEmpty then s
  else
    match r with
    | '.' :: r' => dropSpaces r'
    | ')' :: r' => dropSpaces r'
    | _ => s

/-- `re.sub(r"^[-•*]\s*", "", line)`: strip a leading bullet. -/
def stripBulletMarker (s : List Char) : List Char :=
  match s with
  | c :: r => if c == '-' || c == '•' || c == '*' then dropSpaces r else s
  | [] => []

/-- First alternative (in pattern order) of `units` that prefixes `s`
    case-insensitively; returns the matched slice of `s`. -/
def matchUnitAt (s : List Char) (units : List (List Char)) : Option (List Char) :=
  match units with
  | [] => none
  | u :: rest =>
    if lowerStr (s.take u.length) == u && s.length ≥ u.length then
      some (s.take u.length)
    else matchUnitAt s rest

/-- Alternation order of `(?:mg|ml|g|mcg|iu)` in the dosage pattern. -/
def dosageUnits : List (List Char) :=
  ["mg".data, "ml".data, "g".data, "mcg".data, "iu".data]

/-- `(\d+\s*(?:mg|ml|g|mcg|iu))` anchored at the head of `s`; returns the
    matched slice. -/
def matchDosageAt (s : List Char) : Option (List Char) :=
  let (ds, r) := takeDigits s
  if ds.isEmpty then none
  else
    let sp := r.takeWhile isSpaceChar
    match matchUnitAt (r.drop sp.length) dosageUnits with
    | some u => some (ds ++ sp ++ u)
    | none => none

/-- `re.search` for the dosage pattern: leftmost position that matches. -/
def searchDosage : List Char → Option (List Char)
  | [] => none
  | c :: rest =>
    match matchDosageAt (c :: rest) with
    | some m => some m
    | none => searchDosage rest

/-- `\s*(\d+)` after a quantity keyword; captures the digits only. -/
def qtyDigitsAfter (s : List Char) : Option (List Char) :=
  let (ds, _) := takeDigits (dropSpaces s)
  if ds.isEmpty then none else some ds

/-- First alternative of the quantity pattern,
    `(?:x|SL:?|số lượng:?)\s*(\d+)`, anchored at the head of `s`. -/
def matchQtyAlt1At (s : List Char) : Option (List Char) :=
  let ls := lowerStr s
  match ls with
  | 'x' :: _ => qtyDigitsAfter (s.drop 1)
  | _ =>
    if prefixOf ('s' :: 'l' :: []) ls then
      match s.drop 2 with
      | ':' :: r => qtyDigitsAfter r
      | r => qtyDigitsAfter r
    else if prefixOf ("số lượng".data) ls then
      match s.drop 8 with
      | ':' :: r => qtyDigitsAfter r
      | r => qtyDigitsAfter r
    else none

/-- Alternation order of `(?:viên|tablet|capsule|gói|ống)`. -/
def qtyUnits : List (List Char) :=
  ["viên".data, "tablet".data, "capsule".data, "gói".data, "ống".data]

/-- Second alternative of the quantity pattern, `(\d+)\s*(?:viên|…)`. -/
def matchQtyAlt2At (s : List Char) : Option (List Char) :=
  let (ds, r) := takeDigits s
  if ds.isEmpty then none
  else if (matchUnitAt (dropSpaces r) qtyUnits).isSome then some ds else none

/-- `re.search` for the quantity pattern: leftmost position, first alternative
    preferred at equal positions; the captured group is the digit run. -/
def searchQuantity : List Char → Option (List Char)
  | [] => none
  | c :: rest =>
    match matchQtyAlt1At (c :: rest) with
    | some ds => some ds
    | none =>
      match matchQtyAlt2At (c :: rest) with
      | some ds => some ds
      | none => searchQuantity rest

/-- `ngày\s*(?:uống\s*)?\d+\s*(?:lần|viên)[^\n]*` anchored at the head. -/
def freqP1At (s : List Char) : Bool :=
  if prefixOf ("ngày".data) (lowerStr s) then
    let r := dropSpaces (s.drop 4)
    let body (t : List Char) : Bool :=
      let (ds, t') := takeDigits t
      if ds.isEmpty then false
      else
        let t'' := dropSpaces t'
        prefixOf ("lần".data) (lowerStr t'') || prefixOf ("viên".data) (lowerStr t'')
    (if prefixOf ("uống".data) (lowerStr r) then body (dropSpaces (r.drop 4))
     else false) || body r
  else false

/-- `sáng\s*\d+\s*viên[^\n]*` anchored at the head. -/
def freqP2At (s : List Char) : Bool :=
  prefixOf ("sáng".data) (lowerStr s) &&
    (let t := dropSpaces (s.drop 4)
     let (ds, t') := takeDigits t
     !ds.isEmpty && prefixOf ("viên".data) (lowerStr (dropSpaces t')))

/-- `(?:sáng|trưa|tối)[^\n]*viên[^\n]*` anchored at the head. -/
def freqP3At (s : List Char) : Bool :=
  let ls := lowerStr s
  (prefixOf ("sáng".data) ls && containsSub (lowerStr (s.drop 4)) ("viên".data)) ||
  (prefixOf ("trưa".data) ls && containsSub (lowerStr (s.drop 4)) ("viên".data)) ||
  (prefixOf ("tối".data) ls && containsSub (lowerStr (s.drop 3)) ("viên".data))

/-- `sau ăn[^\n]*` anchored at the head. -/
def freqP4At (s : List Char) : Bool :=
  prefixOf ("sau ăn".data) (lowerStr s)

/-- `trước ăn[^\n]*` anchored at the head. -/
def freqP5At (s : List Char) : Bool :=
  prefixOf ("trước ăn".data) (lowerStr s)

/-- `re.search` of an anchored predicate: the leftmost suffix it holds at.
    Every frequency pattern ends in a greedy `[^\n]*` and a medication line
    contains no newline, so its capture is exactly that suffix. -/
def searchSuffix (p : List Char → Bool) : List Char → Option (List Char)
  | [] => none
  | c :: rest =>
    if p (c :: rest) then some (c :: rest) else searchSuffix p rest

/-- The frequency loop of `_parse_medication_line`: patterns tried in source
    order, first hit wins, the capture is then `.strip()`ped. -/
def searchFrequency (s : List Char) : Option (List Char) :=
  (((((searchSuffix freqP1At s).orElse (fun _ => searchSuffix freqP2At s)).orElse
      (fun _ => searchSuffix freqP3At s)).orElse
      (fun _ => searchSuffix freqP4At s)).orElse
      (fun _ => searchSuffix freqP5At s)).map pyStrip

/-- `str.replace(pat, "")`: remove every (non-overlapping, leftmost-first)
    occurrence.  The fuel starts at the string length, an upper bound on the
    number of steps. -/
def removeAllGo (pat : List Char) : Nat → List Char → List Char
  | _, [] => []
  | 0, s => s
  | fuel + 1, c :: rest =>
    if prefixOf pat (c :: rest) && !pat.isEmpty then
      removeAllGo pat fuel ((c :: rest).drop pat.length)
    else c :: removeAllGo pat fuel rest

def removeAll (s pat : List Char) : List Char :=
  if pat.isEmpty then s else removeAllGo pat s.length s

/-- `re.sub(r"\s+", " ", name)`: each whitespace run becomes one space. -/
def collapseWs : List Char → List Char
  | [] => []
  | c :: rest =>
    if isSpaceChar c then
      match collapseWs rest with
      | ' ' :: t => ' ' :: t
      | t => ' ' :: t
    else c :: collapseWs rest

/-- `re.sub(r"[,\s]+$", "", name)`: strip trailing commas and whitespace. -/
def stripTrailingCommaWs (s : List Char) : List Char :=
  (s.reverse.dropWhile (fun c => c == ',' || isSpaceChar c)).reverse

/-- The name-cleanup of `_parse_medication_line` (`ocr_parser.py:267-275`):
    remove every occurrence of the matched dosage, then of the matched
    frequency (the quantity is *not* removed), collapse whitespace, strip, and
    strip trailing commas/whitespace. -/
def medCleanedName (line : List Char) : List Char :=
  let name₁ :=
    match searchDosage line with
    | some d => removeAll line d
    | none => line
  let name₂ :=
    match searchFrequency line with
    | some f => removeAll name₁ f
    | none => name₁
  stripTrailingCommaWs (pyStrip (collapseWs name₂))

namespace OCRTextParser

/-- `MEDICATION_KEYWORDS` (`ocr_parser.py:79`). -/
def MEDICATION_KEYWORDS : List String :=
  ["mg", "ml", "viên", "tablet", "capsule", "gói", "ống", "chai",
   "ngày", "lần", "sáng", "trưa", "tối", "sau ăn", "trước ăn",
   "uống", "tiêm", "bôi", "nhỏ"]

/-- `_is_medication_line` (`ocr_parser.py:209`): an enumerator, a bullet, or
    at least two keyword hits. -/
def is_medication_line (line : String) : Bool :=
  (let (ds, r) := takeDigits line.data
   !ds.isEmpty &&
     (match r with
      | '.' :: _ => true
      | ')' :: _ => true
      | _ => false)) ||
  (match line.data with
   | c :: _ => c == '-' || c == '•' || c == '*'
   | [] => false) ||
  (MEDICATION_KEYWORDS.countP
    (fun kw => containsSub (lowerStr line.data) kw.data) ≥ 2)

/-- `_parse_medication_line` (`ocr_parser.py:227`): strip the enumerator or
    bullet, reject lines shorter than 3 characters, peel the dosage, quantity
    and frequency tokens, and clean the name — falling back to the whole
    (enumerator-stripped) line when fewer than 2 characters remain. -/
def parse_medication_line (raw : String) : Option MedicationItem :=
  let line := pyStrip (stripBulletMarker (stripEnumMarker raw.data))
  if line.isEmpty ∨ line.length < 3 then none
  else
    some { name := String.mk
             (if (medCleanedName line).length < 2 then line
              else medCleanedName line),
           dosage := (searchDosage line).map String.mk,
           quantity := (searchQuantity line).map String.mk,
           frequency := (searchFrequency line).map String.mk,
           is_handwritten := none }

/-- Python `text.split('\n')`. -/
def splitOnNl : List Char → List (List Char)
  | [] => [[]]
  | '\n' :: rest => [] :: splitOnNl rest
  | c :: rest =>
    match splitOnNl rest with
    | l :: ls => (c :: l) :: ls
    | [] => [[c]]

/-- `_extract_medications` (`ocr_parser.py:182`): first pass over qualifying
    lines, relaxed second pass (any single keyword) only when the first finds
    nothing. -/
def extract_medications (text : String) : List MedicationItem :=
  let lines := splitOnNl text.data
  let meds := lines.foldr
    (fun l acc =>
      let l := pyStrip l
      if l.isEmpty then acc
      else if is_medication_line (String.mk l) then
        match parse_medication_line (String.mk l) with
        | some m => m :: acc
        | none => acc
      else acc) []
  if meds.isEmpty then
    lines.foldr
      (fun l acc =>
        let l := pyStrip l
        if MEDICATION_KEYWORDS.any (fun kw => containsSub (lowerStr l) kw.data) then
          match parse_medication_line (String.mk l) with
          | some m => m :: acc
          | none => acc
        else acc) []
  else meds

/-- The header fields `parse` fills through `_find_first_match` over the raw
    OCR text (`_extract_patient_info` and friends); no stated property depends
    on their values, so they enter the model as inputs. -/
structure OcrHeaderInfo where
  patient_name : Option String := none
  patient_age : Option String := none
  patient_gender : Option String := none
  patient_address : Option String := none
  doctor_name : Option String := none
  doctor_title : Option String := none
  hospital_name : Option String := none
  hospital_department : Option String := none
  diagnosis : Option String := none
  issue_date : Option String := none
  prescription_number : Option String := none
deriving Repr, Inhabited

/-- `OCRTextParser.parse` (`ocr_parser.py:89`): the local fallback structurer.
    Always returns a record, never fails; `extraction_method` is the constant
    `"ocr_only"`, the type comes from the `0.5`/`0.7` confidence breakpoints,
    and no signature field is ever produced. -/
def parse (h : OcrHeaderInfo) (ocr_text : String) (ocr_confidence : Rat) :
    ExtractedPrescription :=
  let medications := extract_medications ocr_text
  let ptype : String :=
    if ocr_confidence < mkRat 1 2 then "handwritten"
    else if ocr_confidence < mkRat 7 10 then "mixed"
    else "printed"
  { document_type := "prescription",
    prescription_type := some ptype,
    prescription_number := h.prescription_number,
    issue_date := h.issue_date,
    patient := { name := h.patient_name, age := h.patient_age,
                 gender := h.patient_gender, address := h.patient_address },
    doctor := { name := h.doctor_name, title := h.doctor_title },
    hospital := { name := h.hospital_name, department := h.hospital_department },
    diagnosis := h.diagnosis,
    medications := medications,
    extraction_method := some "ocr_only",
    confidence_score := some ocr_confidence,
    ocr_confidence := some ocr_confidence,
    llm_enhanced := false,
    total_items := some medications.length,
    ocr_text := some ocr_text }

end OCRTextParser

/-! ### `PrescriptionProcessor` (`prescription_processor.py`) -/

namespace PrescriptionProcessor

/-- `HANDWRITING_CONFIDENCE_THRESHOLD = 0.6` (`prescription_processor.py:19`). -/
def HANDWRITING_CONFIDENCE_THRESHOLD : Rat := mkRat 3 5

/-- `VISION_ALWAYS_FOR_SIGNATURES = True` (`prescription_processor.py:20`). -/
def VISION_ALWAYS_FOR_SIGNATURES : Bool := true

/-- `classify_prescription_type` (`prescription_processor.py:50`), taking the
    already-extracted parent directory name (`Path(image_path).parent.name`). -/
def classify_prescription_type (parentFolder : String) (ocr_confidence : Rat) :
    String :=
  let f := lowerStr parentFolder.data
  if containsSub f ("handwrit".data) then "handwritten"
  else if containsSub f ("print".data) then "printed"
  else if containsSub f ("mixed".data) then "mixed"
  else if containsSub f ("screen".data) || containsSub f ("digital".data) then
    "digital"
  else if ocr_confidence < mkRat 1 2 then "handwritten"
  else if ocr_confidence < mkRat 7 10 then "mixed"
  else "printed"

/-- `needs_vision_enhancement` (`prescription_processor.py:86`). -/
def needs_vision_enhancement (ocr_confidence : Rat) (prescription_type : String) :
    Bool :=
  if prescription_type == "handwritten" then true
  else if prescription_type == "mixed" then true
  else if ocr_confidence < HANDWRITING_CONFIDENCE_THRESHOLD then true
  else false

/-- The three extraction tiers the router can pick. -/
inductive Tier where
  | imageAnalysis
  | textAnalysis
  | localFallback
deriving DecidableEq, Repr

/-- The routing decision of `process` (`prescription_processor.py:171-227`):
    `use_vision = force_vision or needs_vision_enhancement(...)`; the vision
    branch runs when `use_vision` holds and the vision strategy is available,
    the LLM-text branch when the text strategy is available, and the regex
    fallback otherwise. -/
def route (ocr_confidence : Rat) (prescription_type : String)
    (force_vision visionAvail textAvail : Bool) : Tier :=
  if (force_vision || needs_vision_enhancement ocr_confidence prescription_type)
      && visionAvail then .imageAnalysis
  else if textAvail then .textAnalysis
  else .localFallback

/-- The router exactly as the specification words it, five rules applied
    first-match-first (comparison definition, from the spec's words). -/
def routeSpec (ocr_confidence : Rat) (prescription_type : String)
    (override visionAvail textAvail : Bool) : Tier :=
  if override && visionAvail then .imageAnalysis
  else if (prescription_type == "handwritten" || prescription_type == "mixed")
      && visionAvail then .imageAnalysis
  else if ocr_confidence < 3/5 && visionAvail then .imageAnalysis
  else if textAvail then .textAnalysis
  else .localFallback

/-- Which strategies the constructed processor holds (`self.vision` and
    `self.llm_text` being non-`None`). -/
structure ProcessorConfig where
  visionAvail : Bool
  textAvail : Bool
deriving Repr

/-- Everything `process` observes about one document: the path (and its
    pieces used for metadata and classification), the OCR stage outcome —
    either the raised exception or `(text, confidence, elapsed)` — and the
    oracle outcomes of the up-to-three remote calls. -/
structure DocumentInput where
  file_path : String
  file_name : String
  parentFolder : String
  ocr : Except String (String × Rat × Rat)
  visionCall : AttemptOutcome := { response := .error () }
  llmCall : AttemptOutcome := { response := .error () }
  sigCall : AttemptOutcome := { response := .error () }
  header : OCRTextParser.OcrHeaderInfo := {}

/-- The `metadata` dict `process` assembles (a key that was never written is
    `none`, so a batch error entry, which holds only `error` and `file_path`,
    is representable). -/
structure Metadata where
  file_name : Option String := none
  file_path : Option String := none
  ocr_used : Option Bool := none
  vision_used : Option Bool := none
  llm_text_used : Option Bool := none
  extraction_method : Option String := none
  processing_stages : List String := []
  total_processing_time : Option Rat := none
  final_confidence : Option Rat := none
  error : Option String := none
deriving Repr

/-- Result of the stage-2 primary extraction inside `process`. -/
structure PrimaryResult where
  record : ExtractedPrescription
  stage : String
  method : String
  vision_used : Bool
  llm_text_used : Option Bool
  elapsed : Rat

/-- Stage 2 of `process`: the branch on `use_vision and self.vision`, then
    `self.llm_text`, then the regex fallback, including the in-place updates
    each branch performs on the returned record and the metadata values it
    writes. -/
def primaryStage (cfg : ProcessorConfig) (inp : DocumentInput)
    (force_vision : Bool) (ocr_text : String) (ocr_confidence : Rat)
    (ptype : String) : PrimaryResult :=
  match route ocr_confidence ptype force_vision cfg.visionAvail cfg.textAvail with
  | .imageAnalysis =>
    let r := VisionExtractor.extract_from_image inp.visionCall (some ocr_confidence)
    { record := { r.1 with prescription_type := some ptype,
                           extraction_method := some "ocr_plus_llm",
                           ocr_confidence := some ocr_confidence,
                           llm_enhanced := true },
      stage := "vision", method := "ocr_plus_llm_vision",
      vision_used := true, llm_text_used := none, elapsed := r.2 }
  | .textAnalysis =>
    let r := LLMExtractor.extract inp.llmCall
    { record := { r.1 with prescription_type := some ptype,
                           extraction_method := some "ocr_plus_llm_text",
                           ocr_confidence := some ocr_confidence,
                           llm_enhanced := true },
      stage := "llm_text_structuring", method := "ocr_plus_llm_text",
      vision_used := false, llm_text_used := some true, elapsed := r.2 }
  | .localFallback =>
    let pr := OCRTextParser.parse inp.header ocr_text ocr_confidence
    { record := { pr with prescription_type := some ptype },
      stage := "ocr_parsing_regex", method := "ocr_only_regex",
      vision_used := false, llm_text_used := none, elapsed := 0 }

/-- Stage 3 of `process` (`prescription_processor.py:241-253`): the dedicated
    signature call runs exactly when vision is available and the record's
    signature field is still `None` (a `SignatureInfo` object — even one with
    `is_present=False` — is truthy in Python, so its mere presence skips the
    stage); returns the possibly-updated record, the stage entries added, and
    the stage time. -/
def signatureStage (cfg : ProcessorConfig) (inp : DocumentInput)
    (p : ExtractedPrescription) : ExtractedPrescription × List String × Rat :=
  if VISION_ALWAYS_FOR_SIGNATURES && cfg.visionAvail
      && p.doctor_signature.isNone then
    let r := VisionExtractor.analyze_signature_only inp.sigCall
    ({ p with doctor_signature := some r.1 }, ["signature_detection"], r.2)
  else (p, [], 0)

/-- `PrescriptionProcessor.process` (`prescription_processor.py:116`): OCR →
    classification → routed primary extraction → conditional signature stage →
    metadata assembly.  An exception from the OCR stage propagates (it is the
    batch driver that catches); everything after OCR is non-throwing. -/
def process (cfg : ProcessorConfig) (inp : DocumentInput) (force_vision : Bool) :
    Except String (ExtractedPrescription × Metadata) :=
  match inp.ocr with
  | .error e => .error e
  | .ok (ocr_text, ocr_confidence, ocr_time) =>
    let ptype := classify_prescription_type inp.parentFolder ocr_confidence
    let prim := primaryStage cfg inp force_vision ocr_text ocr_confidence ptype
    let s3 := signatureStage cfg inp { prim.record with ocr_text := some ocr_text }
    let p := s3.1
    let final_confidence :=
      match p.confidence_score with
      | some q => if q ≠ 0 then q else ocr_confidence
      | none => ocr_confidence
    .ok (p,
      { file_name := some inp.file_name,
        file_path := some inp.file_path,
        ocr_used := some true,
        vision_used := some prim.vision_used,
        llm_text_used := prim.llm_text_used,
        extraction_method := some prim.method,
        processing_stages := ["ocr", prim.stage] ++ s3.2.1,
        total_processing_time := some (ocr_time + prim.elapsed + s3.2.2),
        final_confidence := some final_confidence,
        error := none })

/-- `PrescriptionProcessor.process_batch` (`prescription_processor.py:270`):
    every document is processed in turn; an exception becomes an entry of a
    default-constructed `ExtractedPrescription(document_type="prescription")`
    and the two-key metadata dict, and the batch continues. -/
def process_batch (cfg : ProcessorConfig) (items : List DocumentInput)
    (force_vision : Bool) : List (ExtractedPrescription × Metadata) :=
  items.map (fun it =>
    match process cfg it force_vision with
    | .ok r => r
    | .error e =>
      ({ document_type := "prescription" },
       { error := some e, file_path := some it.file_path }))

/-- Does the parent folder name contain one of the recognizable type
    keywords of `classify_prescription_type`? -/
def hasDirectoryHint (folder : String) : Bool :=
  let f := lowerStr folder.data
  containsSub f ("handwrit".data) || containsSub f ("print".data) ||
    containsSub f ("mixed".data) || containsSub f ("screen".data) ||
    containsSub f ("digital".data)

/-- The "clarity" order on the confidence-inferred categories:
    handwritten < mixed < printed. -/
def clarity : String → Nat
  | "mixed" => 1
  | "printed" => 2
  | _ => 0

end PrescriptionProcessor

/-! ### Concrete instances used to witness the claim theorems -/

/-- A document whose OCR stage raises (missing image). -/
def imgMissing : PrescriptionProcessor.DocumentInput :=
  { file_path := "data/a.jpg", file_name := "a.jpg", parentFolder := "data",
    ocr := .error "Image not found: data/a.jpg" }

/-- A document whose OCR succeeds with high confidence and keyword-free text. -/
def imgPlain : PrescriptionProcessor.DocumentInput :=
  { file_path := "data/b.jpg", file_name := "b.jpg", parentFolder := "data",
    ocr := .ok ("hello", mkRat 4 5, 1) }

/-- Processor with no remote strategy constructed. -/
def cfgNone : PrescriptionProcessor.ProcessorConfig :=
  { visionAvail := false, textAvail := false }

/-- Processor with only the LLM-text strategy constructed. -/
def cfgTextOnly : PrescriptionProcessor.ProcessorConfig :=
  { visionAvail := false, textAvail := true }

/-- Processor with both remote strategies constructed. -/
def cfgFull : PrescriptionProcessor.ProcessorConfig :=
  { visionAvail := true, textAvail := true }

/-- The round-trip response text of the spec's testable properties. -/
def roundTripResponse : String :=
  "```json\x7b\"document_type\":\"prescription\",\"medications\":[]\x7d```"

/-- A response with an *untagged* fenced JSON block followed by further loose
    braces: the source accepts the block (the `json` tag is optional in its
    pattern), while an algorithm that requires the tag falls through to the
    greedy brace span, which is not parseable JSON. -/
def untaggedFenceResponse : String :=
  "```\n\x7b\"a\": 1\x7d\n``` \x7b\"b\": 2\x7d"

/-- A remote response whose JSON resolves the document type. -/
def resolvedResponse : String :=
  "```json\x7b\"document_type\":\"prescription\"\x7d```"

/-- An attempt family whose every attempt raises. -/
def failingAttempts : Nat → AttemptOutcome :=
  fun _ => { response := .error (), elapsed := 1 }

/-- An attempt family whose every attempt succeeds with a resolved record. -/
def succeedingAttempts : Nat → AttemptOutcome :=
  fun _ => { response := .ok resolvedResponse, elapsed := 1 }

/-- An attempt family whose first attempt raises and whose retries would
    succeed. -/
def recoveringAttempts : Nat → AttemptOutcome
  | 0 => { response := .error (), elapsed := 1 }
  | _ + 1 => { response := .ok resolvedResponse, elapsed := 1 }

/-- A text-tier document whose one LLM call fails (a retry would succeed). -/
def imgTextTier : PrescriptionProcessor.DocumentInput :=
  { file_path := "data/c.jpg", file_name := "c.jpg", parentFolder := "data",
    ocr := .ok ("hello", mkRat 4 5, 1),
    llmCall := { response := .error (), elapsed := 1 } }

/-- A text-tier document whose LLM call succeeds. -/
def imgTextOk : PrescriptionProcessor.DocumentInput :=
  { file_path := "data/d.jpg", file_name := "d.jpg", parentFolder := "data",
    ocr := .ok ("hello", mkRat 4 5, 1),
    llmCall := { response := .ok resolvedResponse, elapsed := 1 } }

/-- A vision-tier document whose vision call succeeds and whose signature
    call fails. -/
def imgVisionOk : PrescriptionProcessor.DocumentInput :=
  { file_path := "data/e.jpg", file_name := "e.jpg", parentFolder := "data",
    ocr := .ok ("hello", mkRat 4 5, 1),
    visionCall := { response := .ok resolvedResponse, elapsed := 1 } }

/-- The signature-only analysis of `o` can produce `si`: the remote call
    returned text whose JSON candidate parses and validates as that
    `SignatureInfo`. -/
def sigParseOk (o : AttemptOutcome) (si : SignatureInfo) : Prop :=
  ∃ s j, o.response = .ok s ∧ extract_json_from_response s = .ok j ∧
    SignatureInfo.ofJs j "signature" = .ok si

/-- An optional confidence value is absent or within `[0, 1]`. -/
def confidenceBounded (o : Option Rat) : Prop :=
  ∀ q ∈ o, 0 ≤ q ∧ q ≤ 1

/-- Every confidence field of a record — overall score, OCR confidence, and
    the signature confidences at the document, doctor, and handwriting level —
    is absent or within `[0, 1]`. -/
def confidencesInRange (p : ExtractedPrescription) : Prop :=
  confidenceBounded p.confidence_score ∧
  confidenceBounded p.ocr_confidence ∧
  (∀ s ∈ p.doctor_signature, confidenceBounded s.confidence) ∧
  (∀ s ∈ p.doctor.signature, confidenceBounded s.confidence) ∧
  (∀ a ∈ p.handwriting_analysis, confidenceBounded a.ocr_confidence)

/-! ### Helper lemmas about the field validators -/

/-- A successful `Except` bind decomposes into two successful steps. -/
theorem exBind_ok {ε α β : Type} {x : Except ε α} {f : α → Except ε β} {b : β} :
    x >>= f = .ok b ↔ ∃ a, x = .ok a ∧ f a = .ok b := by
  cases x <;> simp [Bind.bind, Except.bind]

/-- Whatever `vConfidence` accepts is absent or within `[0, 1]`. -/
theorem vConfidence_bounds {j : Option Js} {path : String} {o : Option Rat}
    (h : vConfidence j path = .ok o) : confidenceBounded o := by
  unfold vConfidence at h
  split at h
  · cases h
    intro q hq
    simp at hq
  · cases h
    intro q hq
    simp at hq
  · split at h
    · split_ifs at h with hb
      cases h
      intro r hr
      simp only [Option.mem_def, Option.some.injEq] at hr
      exact hr ▸ hb
    · cases h

/-- A validated `SignatureInfo` has a bounded confidence. -/
theorem sigInfo_ofJs_bounds {v : Js} {path : String} {s : SignatureInfo}
    (h : SignatureInfo.ofJs v path = .ok s) : confidenceBounded s.confidence := by
  unfold SignatureInfo.ofJs at h
  split at h
  · simp only [exBind_ok] at h
    obtain ⟨a1, h1, a2, h2, a3, h3, a4, h4, a5, h5, a6, h6, hp⟩ := h
    simp only [pure, Except.pure, Except.ok.injEq] at hp
    subst hp
    exact vConfidence_bounds h6
  · cases h

/-- A validated optional `SignatureInfo` field has a bounded confidence. -/
theorem vOptSig_bounds {g : Option Js} {path : String}
    {sv : Option SignatureInfo} (h : vOptSignatureInfo g path = .ok sv) :
    ∀ s ∈ sv, confidenceBounded s.confidence := by
  unfold vOptSignatureInfo at h
  split at h
  · cases h
    simp
  · cases h
    simp
  · rename_i v hne
    cases hv : SignatureInfo.ofJs v path with
    | error e =>
      rw [hv] at h
      cases h
    | ok a =>
      rw [hv] at h
      simp only [Except.map, Except.ok.injEq] at h
      subst h
      intro s hs
      simp only [Option.mem_def, Option.some.injEq] at hs
      exact hs ▸ sigInfo_ofJs_bounds hv

/-- A validated `HandwritingAnalysis` has a bounded OCR confidence. -/
theorem hand_ofJs_bounds {v : Js} {path : String} {a : HandwritingAnalysis}
    (h : HandwritingAnalysis.ofJs v path = .ok a) :
    confidenceBounded a.ocr_confidence := by
  unfold HandwritingAnalysis.ofJs at h
  split at h
  · simp only [exBind_ok] at h
    obtain ⟨a1, h1, a2, h2, a3, h3, a4, h4, a5, h5, hp⟩ := h
    simp only [pure, Except.pure, Except.ok.injEq] at hp
    subst hp
    exact vConfidence_bounds h3
  · cases h

/-- A validated optional `HandwritingAnalysis` field has a bounded OCR
    confidence. -/
theorem vOptHand_bounds {g : Option Js} {path : String}
    {av : Option HandwritingAnalysis} (h : vOptHandwriting g path = .ok av) :
    ∀ a ∈ av, confidenceBounded a.ocr_confidence := by
  unfold vOptHandwriting at h
  split at h
  · cases h
    simp
  · cases h
    simp
  · rename_i v hne
    cases hv : HandwritingAnalysis.ofJs v path with
    | error e =>
      rw [hv] at h
      cases h
    | ok b =>
      rw [hv] at h
      simp only [Except.map, Except.ok.injEq] at h
      subst h
      intro a ha
      simp only [Option.mem_def, Option.some.injEq] at ha
      exact ha ▸ hand_ofJs_bounds hv

/-- A validated `DoctorInfo` has a bounded embedded signature confidence. -/
theorem doctor_ofJs_bounds {v : Js} {path : String} {d : DoctorInfo}
    (h : DoctorInfo.ofJs v path = .ok d) :
    ∀ s ∈ d.signature, confidenceBounded s.confidence := by
  unfold DoctorInfo.ofJs at h
  split at h
  · simp only [exBind_ok] at h
    obtain ⟨a1, h1, a2, h2, a3, h3, a4, h4, a5, h5, a6, h6, hp⟩ := h
    simp only [pure, Except.pure, Except.ok.injEq] at hp
    subst hp
    exact vOptSig_bounds h6
  · cases h

/-- The `doctor` field validator preserves the bound. -/
theorem vDoctor_bounds {g : Option Js} {d : DoctorInfo}
    (h : vDoctor g = .ok d) : ∀ s ∈ d.signature, confidenceBounded s.confidence := by
  unfold vDoctor at h
  split at h
  · cases h
    simp
  · exact doctor_ofJs_bounds h

/-- `LLMExtractor.extract` reports the attempt's elapsed time in every
    branch, success or failure. -/
theorem extract_elapsed (o : AttemptOutcome) :
    (LLMExtractor.extract o).2 = o.elapsed := by
  unfold LLMExtractor.extract
  split
  · rfl
  · split
    · rfl
    · split <;> rfl

/-- The stage entries the signature stage adds, as a function of its guard. -/
theorem signatureStage_stages (cfg : PrescriptionProcessor.ProcessorConfig)
    (inp : PrescriptionProcessor.DocumentInput) (p : ExtractedPrescription) :
    (PrescriptionProcessor.signatureStage cfg inp p).2.1 =
      if PrescriptionProcessor.VISION_ALWAYS_FOR_SIGNATURES && cfg.visionAvail
          && p.doctor_signature.isNone then ["signature_detection"] else [] := by
  unfold PrescriptionProcessor.signatureStage
  split
  case _ h => rfl
  case _ h => rfl

/-- The signature stage never touches an already-present signature. -/
theorem signatureStage_keeps (cfg : PrescriptionProcessor.ProcessorConfig)
    (inp : PrescriptionProcessor.DocumentInput) (p : ExtractedPrescription)
    (s : SignatureInfo) (h : p.doctor_signature = some s) :
    (PrescriptionProcessor.signatureStage cfg inp p).1.doctor_signature = some s := by
  unfold PrescriptionProcessor.signatureStage
  split
  case _ hc =>
    rw [h] at hc
    simp at hc
  case _ => exact h

/-- The signature stage never changes the extraction method. -/
theorem signatureStage_method (cfg : PrescriptionProcessor.ProcessorConfig)
    (inp : PrescriptionProcessor.DocumentInput) (p : ExtractedPrescription) :
    (PrescriptionProcessor.signatureStage cfg inp p).1.extraction_method =
      p.extraction_method := by
  unfold PrescriptionProcessor.signatureStage
  split <;> rfl

/-- No primary-stage entry is named like the signature stage. -/
theorem primaryStage_stage_ne_sig (cfg : PrescriptionProcessor.ProcessorConfig)
    (inp : PrescriptionProcessor.DocumentInput) (force : Bool) (t : String)
    (c : Rat) (pt : String) :
    (PrescriptionProcessor.primaryStage cfg inp force t c pt).stage ≠
      "signature_detection" := by
  unfold PrescriptionProcessor.primaryStage
  cases PrescriptionProcessor.route c pt force cfg.visionAvail cfg.textAvail <;>
    simp

/-- The record-level and metadata-level extraction-method strings each tier
    of the primary stage writes. -/
theorem primaryStage_by_route (cfg : PrescriptionProcessor.ProcessorConfig)
    (inp : PrescriptionProcessor.DocumentInput) (force : Bool) (t : String)
    (c : Rat) (pt : String) :
    (PrescriptionProcessor.route c pt force cfg.visionAvail cfg.textAvail =
        .imageAnalysis →
      (PrescriptionProcessor.primaryStage cfg inp force t c pt).record.extraction_method
          = some "ocr_plus_llm" ∧
      (PrescriptionProcessor.primaryStage cfg inp force t c pt).method =
          "ocr_plus_llm_vision") ∧
    (PrescriptionProcessor.route c pt force cfg.visionAvail cfg.textAvail =
        .textAnalysis →
      (PrescriptionProcessor.primaryStage cfg inp force t c pt).record.extraction_method
          = some "ocr_plus_llm_text" ∧
      (PrescriptionProcessor.primaryStage cfg inp force t c pt).method =
          "ocr_plus_llm_text") ∧
    (PrescriptionProcessor.route c pt force cfg.visionAvail cfg.textAvail =
        .localFallback →
      (PrescriptionProcessor.primaryStage cfg inp force t c pt).record.extraction_method
          = some "ocr_only" ∧
      (PrescriptionProcessor.primaryStage cfg inp force t c pt).method =
          "ocr_only_regex") := by
  refine ⟨?_, ?_, ?_⟩ <;> intro hr <;>
    unfold PrescriptionProcessor.primaryStage <;> rw [hr] <;> exact ⟨rfl, rfl⟩

namespace Claims

open PrescriptionProcessor

/-- **C1.** For every (OCR confidence, document type, override flag, strategy
    availability) tuple, the routing decision of `process` returns exactly one
    of the three tiers (it is a total function into `Tier`) and agrees with
    the spec's five first-match-wins rules: override with vision available →
    image-analysis; handwritten/mixed with vision available → image-analysis;
    confidence < 0.6 with vision available → image-analysis; else
    text-analysis when available; else local-fallback. -/
theorem router_matches_first_match_rules (conf : Rat) (ptype : String)
    (force visionAvail textAvail : Bool) :
    route conf ptype force visionAvail textAvail =
      routeSpec conf ptype force visionAvail textAvail := by
  have hmk : (mkRat 3 5 : Rat) = 3/5 := by norm_num [Rat.mkRat_eq_div]
  simp only [route, routeSpec, needs_vision_enhancement,
    HANDWRITING_CONFIDENCE_THRESHOLD, hmk]
  cases visionAvail <;> cases force <;> cases textAvail <;>
    by_cases h1 : ptype == "handwritten" <;> by_cases h2 : ptype == "mixed" <;>
    by_cases h3 : conf < 3/5 <;> simp_all

/-- **C8.** The classifier lets a recognizable directory keyword win outright
    (with a hint, the result does not depend on the confidence at all);
    without a hint it infers purely from the fixed breakpoints
    (< 0.5 handwritten, < 0.7 mixed, else printed); it always returns one of
    the four type values with no error path; and without a hint it is
    monotone across the breakpoints: a lower confidence is never classified
    into a clearer category than a higher one. -/
theorem classifier_hint_breakpoints_monotone (folder : String) (c c₂ : Rat)
    (hle : c ≤ c₂) :
    (∀ q : Rat, classify_prescription_type folder q ∈
      (["handwritten", "printed", "mixed", "digital"] : List String)) ∧
    (hasDirectoryHint folder = true →
      ∀ q q' : Rat,
        classify_prescription_type folder q = classify_prescription_type folder q') ∧
    (hasDirectoryHint folder = false →
      (∀ q : Rat, classify_prescription_type folder q =
        (if q < 1/2 then "handwritten" else if q < 7/10 then "mixed"
         else "printed")) ∧
      clarity (classify_prescription_type folder c) ≤
        clarity (classify_prescription_type folder c₂)) := by
  refine ⟨?_, ?_, ?_⟩
  · intro q
    simp only [classify_prescription_type]
    split_ifs <;> simp
  · intro hhint q q'
    simp only [hasDirectoryHint] at hhint
    simp only [classify_prescription_type]
    split_ifs <;> simp_all
  · intro hfalse
    simp only [hasDirectoryHint, Bool.or_eq_false_iff] at hfalse
    obtain ⟨⟨⟨⟨hh, hp⟩, hm⟩, hs⟩, hd⟩ := hfalse
    have h12 : (mkRat 1 2 : Rat) = 1/2 := by norm_num [Rat.mkRat_eq_div]
    have h710 : (mkRat 7 10 : Rat) = 7/10 := by norm_num [Rat.mkRat_eq_div]
    constructor
    · intro q
      simp [classify_prescription_type, hh, hp, hm, hs, hd, h12, h710]
    · simp only [classify_prescription_type, hh, hp, hm, hs, hd, h12, h710,
        Bool.or_self, if_false]
      split_ifs <;> simp [clarity] <;> linarith

/-- Witness for C8 at `folder = "images"`, `c = 0.45`, `c₂ = 0.8`: the
    breakpoint inference applies and monotonicity is observed. -/
theorem classifier_hint_breakpoints_monotone_witness :
    classify_prescription_type "images" (mkRat 45 100) = "handwritten" ∧
    clarity (classify_prescription_type "images" (mkRat 45 100)) ≤
      clarity (classify_prescription_type "images" (mkRat 8 10)) := by
  have h := classifier_hint_breakpoints_monotone "images" (mkRat 45 100)
    (mkRat 8 10) (by norm_num [Rat.mkRat_eq_div])
  obtain ⟨-, -, h3⟩ := h
  obtain ⟨hbp, hmono⟩ := h3 (by decide)
  refine ⟨?_, hmono⟩
  rw [hbp]
  norm_num [Rat.mkRat_eq_div]

/-- **C9.** Batch processing returns one result per input image, in input
    order; a document whose processing raises is converted into an explicit
    per-document entry carrying the input identifier and the error
    description, and the remaining documents are still processed (the output
    is the pointwise image of the input list). -/
theorem batch_one_result_per_input (cfg : ProcessorConfig)
    (items : List DocumentInput) (force : Bool) :
    (process_batch cfg items force).length = items.length ∧
    ∀ i (hi : i < items.length)
      (ho : i < (process_batch cfg items force).length),
      (process_batch cfg items force).get ⟨i, ho⟩ =
        match process cfg (items.get ⟨i, hi⟩) force with
        | .ok r => r
        | .error e =>
          (({ document_type := "prescription" } : ExtractedPrescription),
           ({ error := some e,
              file_path := some (items.get ⟨i, hi⟩).file_path } : Metadata)) := by
  refine ⟨by simp [process_batch], ?_⟩
  intro i hi ho
  simp [process_batch, List.get_eq_getElem, List.getElem_map]

/-- Witness for C9: a two-document batch whose first document fails at the
    OCR stage still yields two entries, the first carrying the error and the
    path, the second error-free. -/
theorem batch_one_result_per_input_witness :
    (process_batch cfgNone [imgMissing, imgPlain] false).length = 2 ∧
    ((process_batch cfgNone [imgMissing, imgPlain] false).get
      ⟨0, by simp [process_batch]⟩).2.error =
        some "Image not found: data/a.jpg" ∧
    ((process_batch cfgNone [imgMissing, imgPlain] false).get
      ⟨1, by simp [process_batch]⟩).2.error = none := by
  have h := batch_one_result_per_input cfgNone [imgMissing, imgPlain] false
  refine ⟨by rw [h.1]; rfl, ?_, ?_⟩
  · rw [h.2 0 (by norm_num) (by simp [process_batch])]
    rfl
  · rw [h.2 1 (by norm_num) (by simp [process_batch])]
    rfl

/-- **C10.** (implicit) The record paired with a batch error entry is the
    default-constructed record: its `document_type` is the resolved value
    `"prescription"` (not the `"unknown"` sentinel), it has zero medications
    and no signature; and since every successful `process` outcome has no
    `error` key in its metadata, the error key — never the record's
    `document_type` — is what distinguishes a failed document. -/
theorem batch_error_entry_resolved_type (cfg : ProcessorConfig)
    (it : DocumentInput) (force : Bool) (e : String)
    (h : process cfg it force = .error e) :
    process_batch cfg [it] force =
      [(({ document_type := "prescription" } : ExtractedPrescription),
        ({ error := some e, file_path := some it.file_path } : Metadata))] ∧
    (({ document_type := "prescription" } : ExtractedPrescription).document_type
        = "prescription" ∧
      ({ document_type := "prescription" } :
        ExtractedPrescription).document_type ≠ "unknown" ∧
      ({ document_type := "prescription" } :
        ExtractedPrescription).medications = [] ∧
      ({ document_type := "prescription" } :
        ExtractedPrescription).doctor_signature = none) ∧
    (∀ (it' : DocumentInput) d m, process cfg it' force = .ok (d, m) →
      m.error = none) := by
  refine ⟨by simp [process_batch, h], ⟨rfl, by simp, rfl, rfl⟩, ?_⟩
  intro it' d m hm
  unfold process at hm
  split at hm
  · cases hm
  · simp only [Except.ok.injEq, Prod.mk.injEq] at hm
    rw [← hm.2]

/-- Witness for C10: the error entry of a one-document batch whose document
    fails at the OCR stage. -/
theorem batch_error_entry_resolved_type_witness :
    process_batch cfgNone [imgMissing] false =
      [(({ document_type := "prescription" } : ExtractedPrescription),
        ({ error := some "Image not found: data/a.jpg",
           file_path := some "data/a.jpg" } : Metadata))] := by
  have h := batch_error_entry_resolved_type cfgNone imgMissing false
    "Image not found: data/a.jpg" rfl
  exact h.1

/-- **C7 counterexample.** The qualifying line
    `"1. Amoxicillin 500mg 2 viên sáng sau ăn"` does *not* parse to
    `name = "Amoxicillin"`: the quantity token is not removed from the name,
    which comes out as `"Amoxicillin 2 viên sáng"`. -/
theorem med_line_name_keeps_quantity_cx :
    OCRTextParser.parse_medication_line "1. Amoxicillin 500mg 2 viên sáng sau ăn" =
      some { name := "Amoxicillin 2 viên sáng", dosage := some "500mg",
             quantity := some "2", frequency := some "sau ăn",
             duration := none, instructions := none, is_handwritten := none } ∧
    ("Amoxicillin 2 viên sáng" : String) ≠ "Amoxicillin" := by
  exact ⟨by decide, by decide⟩

/-- **C7 (amended).** The line `"1. Amoxicillin 500mg 2 viên sáng sau ăn"`
    qualifies as a medication line and parses to `dosage = "500mg"`,
    `frequency = "sau ăn"` (the meal-relation phrase) and
    `name = "Amoxicillin 2 viên sáng"` — the matched dosage and frequency
    substrings are removed and whitespace collapsed, but the quantity token
    stays in the name; in general the cleaned remainder becomes the name, and
    if it has fewer than 2 characters the enumerator/bullet-stripped line is
    used as the name instead. -/
theorem med_line_parse_amended :
    OCRTextParser.parse_medication_line "1. Amoxicillin 500mg 2 viên sáng sau ăn" =
      some { name := "Amoxicillin 2 viên sáng", dosage := some "500mg",
             quantity := some "2", frequency := some "sau ăn",
             duration := none, instructions := none, is_handwritten := none } ∧
    OCRTextParser.is_medication_line "1. Amoxicillin 500mg 2 viên sáng sau ăn"
      = true ∧
    ∀ raw : String, ∀ m, OCRTextParser.parse_medication_line raw = some m →
      (2 ≤ (medCleanedName (pyStrip (stripBulletMarker (stripEnumMarker raw.data)))).length →
        m.name = String.mk
          (medCleanedName (pyStrip (stripBulletMarker (stripEnumMarker raw.data))))) ∧
      ((medCleanedName (pyStrip (stripBulletMarker (stripEnumMarker raw.data)))).length < 2 →
        m.name = String.mk (pyStrip (stripBulletMarker (stripEnumMarker raw.data)))) := by
  refine ⟨by decide, by decide, ?_⟩
  intro raw m hm
  simp only [OCRTextParser.parse_medication_line] at hm
  constructor
  · intro hlen
    rw [if_neg (by omega :
      ¬ (medCleanedName (pyStrip (stripBulletMarker
          (stripEnumMarker raw.data)))).length < 2)] at hm
    by_cases h0 : (pyStrip (stripBulletMarker (stripEnumMarker raw.data))).isEmpty
        = true ∨ (pyStrip (stripBulletMarker (stripEnumMarker raw.data))).length < 3
    · rw [if_pos h0] at hm
      cases hm
    · rw [if_neg h0] at hm
      simp only [Option.some.injEq] at hm
      subst hm
      rfl
  · intro hlen
    rw [if_pos hlen] at hm
    by_cases h0 : (pyStrip (stripBulletMarker (stripEnumMarker raw.data))).isEmpty
        = true ∨ (pyStrip (stripBulletMarker (stripEnumMarker raw.data))).length < 3
    · rw [if_pos h0] at hm
      cases hm
    · rw [if_neg h0] at hm
      simp only [Option.some.injEq] at hm
      subst hm
      rfl

/-- **C2 counterexample.** The orchestrator does not wrap the primary
    extraction in the retry loop: on a text-tier document whose first (and
    only) LLM call fails while retries would succeed, `process` returns the
    `"unknown"` record even though `extract_with_retry` on the same attempt
    family resolves it; and the image-analysis tier's failure record carries
    `document_type = "prescription"`, not the claimed `"unknown"` sentinel. -/
theorem orchestrator_no_retry_cx :
    (∃ d m, process cfgTextOnly imgTextTier false = .ok (d, m) ∧
      d.document_type = "unknown") ∧
    (LLMExtractor.extract_with_retry recoveringAttempts 2).1.document_type =
      "prescription" ∧
    (VisionExtractor.extract_from_image { response := .error (), elapsed := 1 }
      (some (mkRat 4 5))).1.document_type = "prescription" := by
  exact ⟨⟨_, _, rfl, rfl⟩, rfl, rfl⟩

/-- **C2 (amended).** `LLMExtractor.extract_with_retry` implements the bounded
    retry loop exactly as the claim describes it — with `max_retries = 2` and
    every attempt failing, exactly 3 attempts are made and the result is the
    `"unknown"` sentinel (zero line items, no signature) carrying the elapsed
    time accumulated across all attempts, without throwing, and an attempt
    with a resolved `document_type` ends the loop immediately — but the
    orchestrator never calls it: the text-analysis tier invokes the
    single-attempt `extract` exactly once, and the image-analysis tier makes
    a single vision attempt whose failure record carries
    `document_type = "prescription"`. -/
theorem retry_loop_amended :
    (∀ attempts : Nat → AttemptOutcome,
      (∀ i < 3, (LLMExtractor.extract (attempts i)).1.document_type = "unknown") →
      LLMExtractor.extract_with_retry attempts 2 =
        (unknownSentinel,
         0 + (attempts 0).elapsed + (attempts 1).elapsed + (attempts 2).elapsed) ∧
      LLMExtractor.retryAttemptsUsed attempts 2 = 3) ∧
    unknownSentinel.medications = [] ∧
    unknownSentinel.doctor_signature = none ∧
    (∀ attempts : Nat → AttemptOutcome,
      (LLMExtractor.extract (attempts 0)).1.document_type ≠ "unknown" →
      LLMExtractor.extract_with_retry attempts 2 =
        ((LLMExtractor.extract (attempts 0)).1, 0 + (attempts 0).elapsed) ∧
      LLMExtractor.retryAttemptsUsed attempts 2 = 1) ∧
    (∀ (cfg : ProcessorConfig) (inp : DocumentInput) (force : Bool)
        (t : String) (c τ : Rat),
      inp.ocr = .ok (t, c, τ) →
      route c (classify_prescription_type inp.parentFolder c) force
        cfg.visionAvail cfg.textAvail = .textAnalysis →
      ∃ m, process cfg inp force =
        .ok ((signatureStage cfg inp
          { (LLMExtractor.extract inp.llmCall).1 with
              prescription_type :=
                some (classify_prescription_type inp.parentFolder c),
              extraction_method := some "ocr_plus_llm_text",
              ocr_confidence := some c, llm_enhanced := true,
              ocr_text := some t }).1, m)) ∧
    (∀ (o : AttemptOutcome) (conf : Option Rat), o.response = .error () →
      VisionExtractor.extract_from_image o conf = (visionFailureDoc, o.elapsed) ∧
      visionFailureDoc.document_type = "prescription") := by
  refine ⟨?_, rfl, rfl, ?_, ?_, ?_⟩
  · intro attempts hfail
    have h0 := hfail 0 (by norm_num)
    have h1 := hfail 1 (by norm_num)
    have h2 := hfail 2 (by norm_num)
    constructor <;>
      simp [LLMExtractor.extract_with_retry, LLMExtractor.retryAttemptsUsed,
        retryGo, h0, h1, h2, extract_elapsed]
  · intro attempts hres
    constructor <;>
      simp [LLMExtractor.extract_with_retry, LLMExtractor.retryAttemptsUsed,
        retryGo, hres, extract_elapsed]
  · intro cfg inp force t c τ hocr hroute
    simp only [process, hocr, primaryStage, hroute]
    exact ⟨_, rfl⟩
  · intro o conf ho
    unfold VisionExtractor.extract_from_image
    rw [ho]
    exact ⟨rfl, rfl⟩

/-- Witness for C2 (amended): an always-failing attempt family makes exactly
    3 attempts and yields the sentinel with the summed time; an immediately
    succeeding family stops after 1 attempt. -/
theorem retry_loop_amended_witness :
    LLMExtractor.extract_with_retry failingAttempts 2 =
      (unknownSentinel,
       0 + (failingAttempts 0).elapsed + (failingAttempts 1).elapsed +
         (failingAttempts 2).elapsed) ∧
    LLMExtractor.retryAttemptsUsed failingAttempts 2 = 3 ∧
    LLMExtractor.extract_with_retry succeedingAttempts 2 =
      ((LLMExtractor.extract (succeedingAttempts 0)).1,
       0 + (succeedingAttempts 0).elapsed) ∧
    LLMExtractor.retryAttemptsUsed succeedingAttempts 2 = 1 := by
  have ha := retry_loop_amended.1 failingAttempts (by decide)
  have hc := retry_loop_amended.2.2.2.1 succeedingAttempts (by decide)
  exact ⟨ha.1, ha.2, hc.1, hc.2⟩

/-- **C3 counterexample.** A document routed to the text-analysis tier ends
    with `extraction_method = "ocr_plus_llm_text"`, not the claimed stable
    string `"remote_text_structuring"` (which appears nowhere in the code). -/
theorem extraction_method_string_cx :
    (∃ d m, process cfgTextOnly imgTextOk false = .ok (d, m) ∧
      d.extraction_method = some "ocr_plus_llm_text" ∧
      m.extraction_method = some "ocr_plus_llm_text") ∧
    ("ocr_plus_llm_text" : String) ≠ "remote_text_structuring" := by
  exact ⟨⟨_, _, rfl, rfl, rfl⟩, by decide⟩

/-- **C3 (amended).** The `extraction_method` values the core produces are
    exactly the stable strings `"ocr_plus_llm"` (image-analysis tier),
    `"ocr_plus_llm_text"` (text-analysis tier) and `"ocr_only"` (local
    fallback) on the record — with metadata-level counterparts
    `"ocr_plus_llm_vision"`, `"ocr_plus_llm_text"` and `"ocr_only_regex"` —
    and for a document routed to the text-analysis tier the final
    `extraction_method` is `"ocr_plus_llm_text"`; each of the three values is
    attained. -/
theorem extraction_method_values (cfg : ProcessorConfig)
    (inp : DocumentInput) (force : Bool) (d : ExtractedPrescription)
    (m : Metadata) (t : String) (c τ : Rat)
    (hocr : inp.ocr = .ok (t, c, τ))
    (h : process cfg inp force = .ok (d, m)) :
    (d.extraction_method = some "ocr_plus_llm" ∨
     d.extraction_method = some "ocr_plus_llm_text" ∨
     d.extraction_method = some "ocr_only") ∧
    (m.extraction_method = some "ocr_plus_llm_vision" ∨
     m.extraction_method = some "ocr_plus_llm_text" ∨
     m.extraction_method = some "ocr_only_regex") ∧
    (route c (classify_prescription_type inp.parentFolder c) force
        cfg.visionAvail cfg.textAvail = .textAnalysis →
      d.extraction_method = some "ocr_plus_llm_text" ∧
      m.extraction_method = some "ocr_plus_llm_text") ∧
    (∃ d' m', process cfgFull imgVisionOk true = .ok (d', m') ∧
      d'.extraction_method = some "ocr_plus_llm" ∧
      m'.extraction_method = some "ocr_plus_llm_vision") ∧
    (∃ d' m', process cfgNone imgPlain false = .ok (d', m') ∧
      d'.extraction_method = some "ocr_only" ∧
      m'.extraction_method = some "ocr_only_regex") := by
  unfold process at h
  rw [hocr] at h
  simp only [Except.ok.injEq, Prod.mk.injEq] at h
  obtain ⟨hd, hm⟩ := h
  subst hd
  subst hm
  have hms := primaryStage_by_route cfg inp force t c
    (classify_prescription_type inp.parentFolder c)
  refine ⟨?_, ?_, ?_, ⟨_, _, rfl, rfl, rfl⟩, ⟨_, _, rfl, rfl, rfl⟩⟩
  · rw [signatureStage_method]
    cases hr : route c (classify_prescription_type inp.parentFolder c) force
      cfg.visionAvail cfg.textAvail with
    | imageAnalysis => exact Or.inl (hms.1 hr).1
    | textAnalysis => exact Or.inr (Or.inl (hms.2.1 hr).1)
    | localFallback => exact Or.inr (Or.inr (hms.2.2 hr).1)
  · cases hr : route c (classify_prescription_type inp.parentFolder c) force
      cfg.visionAvail cfg.textAvail with
    | imageAnalysis => exact Or.inl (congrArg some (hms.1 hr).2)
    | textAnalysis => exact Or.inr (Or.inl (congrArg some (hms.2.1 hr).2))
    | localFallback => exact Or.inr (Or.inr (congrArg some (hms.2.2 hr).2))
  · intro hroute
    refine ⟨?_, congrArg some (hms.2.1 hroute).2⟩
    rw [signatureStage_method]
    exact (hms.2.1 hroute).1

/-- Witness for C3 (amended) at a concrete text-tier document. -/
theorem extraction_method_values_witness :
    ∃ d m, process cfgTextOnly imgTextOk false = .ok (d, m) ∧
      (d.extraction_method = some "ocr_plus_llm" ∨
       d.extraction_method = some "ocr_plus_llm_text" ∨
       d.extraction_method = some "ocr_only") := by
  refine ⟨_, _, rfl, ?_⟩
  exact (extraction_method_values cfgTextOnly imgTextOk false _ _ "hello"
    (mkRat 4 5) 1 rfl rfl).1

/-- **C4 counterexample.** Invocation of the signature stage is *not*
    equivalent to the signature field being empty: on a text-tier run with no
    vision strategy configured, the primary record's signature field is empty
    and the stage still does not run (no `signature_detection` stage entry). -/
theorem sig_stage_needs_vision_cx :
    ∃ d m, process cfgTextOnly imgTextOk false = .ok (d, m) ∧
      d.doctor_signature = none ∧
      m.processing_stages = ["ocr", "llm_text_structuring"] := by
  exact ⟨_, _, rfl, rfl, rfl⟩

/-- **C4 (amended).** The signature enrichment stage is invoked after the
    primary stage if and only if the image-analysis service is available
    *and* the record's signature field is still empty (no `SignatureInfo`
    object present); a signature already attached by the primary strategy is
    never overwritten; and when the stage's remote call or parsing fails in
    any way it returns `is_present = false` with all other fields unset,
    without raising. -/
theorem signature_stage_amended (cfg : ProcessorConfig)
    (inp : DocumentInput) (force : Bool) (t : String) (c τ : Rat)
    (d : ExtractedPrescription) (m : Metadata)
    (hocr : inp.ocr = .ok (t, c, τ))
    (h : process cfg inp force = .ok (d, m)) :
    ("signature_detection" ∈ m.processing_stages ↔
      cfg.visionAvail = true ∧
      (primaryStage cfg inp force t c
        (classify_prescription_type inp.parentFolder c)).record.doctor_signature
        = none) ∧
    (∀ s, (primaryStage cfg inp force t c
        (classify_prescription_type inp.parentFolder c)).record.doctor_signature
        = some s → d.doctor_signature = some s) ∧
    (∀ o : AttemptOutcome,
      (∀ si, ¬ sigParseOk o si) →
      VisionExtractor.analyze_signature_only o =
        ({ is_present := false }, o.elapsed)) := by
  unfold process at h
  rw [hocr] at h
  simp only [Except.ok.injEq, Prod.mk.injEq] at h
  obtain ⟨hd, hm⟩ := h
  subst hd
  subst hm
  refine ⟨?_, ?_, ?_⟩
  · rw [signatureStage_stages]
    split_ifs with hcond
    · simp only [VISION_ALWAYS_FOR_SIGNATURES, Bool.true_and,
        Bool.and_eq_true, Option.isNone_iff_eq_none] at hcond
      simp only [List.append_eq, List.mem_append, List.mem_cons,
        List.mem_singleton, List.not_mem_nil, or_false]
      constructor
      · intro _
        exact ⟨hcond.1, hcond.2⟩
      · intro _
        simp
    · simp only [List.append_nil]
      constructor
      · intro hmem
        rcases List.mem_cons.mp hmem with h1 | h2
        · exact absurd h1 (by decide)
        · rcases List.mem_cons.mp h2 with h3 | h4
          · exact absurd h3.symm (primaryStage_stage_ne_sig cfg inp force t c
              (classify_prescription_type inp.parentFolder c))
          · cases h4
      · intro hright
        refine absurd ?_ hcond
        simp only [VISION_ALWAYS_FOR_SIGNATURES, Bool.true_and,
          Bool.and_eq_true, Option.isNone_iff_eq_none]
        exact ⟨hright.1, hright.2⟩
  · intro s hs
    exact signatureStage_keeps cfg inp _ s hs
  · intro o hno
    unfold VisionExtractor.analyze_signature_only
    cases ho : o.response with
    | error e => simp only [ho]
    | ok s =>
      cases hj : extract_json_from_response s with
      | error e => simp only [ho, hj]
      | ok j =>
        cases hsi : SignatureInfo.ofJs j "signature" with
        | error e => simp only [ho, hj, hsi]
        | ok si => exact absurd ⟨s, j, ho, hj, hsi⟩ (hno si)

/-- Witness for C4 (amended): with vision available and a text-tier primary
    record lacking a signature, the stage runs. -/
theorem signature_stage_amended_witness :
    ∃ d m, process cfgFull imgTextOk false = .ok (d, m) ∧
      "signature_detection" ∈ m.processing_stages := by
  refine ⟨_, _, rfl, ?_⟩
  have h := (signature_stage_amended cfgFull imgTextOk false "hello"
    (mkRat 4 5) 1 _ _ rfl rfl).1
  exact h.mpr ⟨rfl, rfl⟩

/-- **C6.** Every record constructed by the schema validation has all its
    confidence fields (overall score, OCR confidence, and signature/handwriting
    confidences) absent or within `[0, 1]`; the `medications` field is never
    null (a `null` is rejected outright and an absent field defaults to the
    empty list); and a parsed response carrying `confidence_score = 1.5` is
    rejected with a schema validation error naming that field, producing no
    record. -/
theorem schema_validation_invariants (j : Js) (p : ExtractedPrescription)
    (h : ExtractedPrescription.ofJs j = .ok p) :
    confidencesInRange p ∧
    j.getField "medications" ≠ some Js.null ∧
    (j.getField "medications" = none → p.medications = []) ∧
    ExtractedPrescription.ofJs (Js.obj
      [("document_type", Js.str "prescription"),
       ("confidence_score",
        Js.num { mantissa := 15, exp10 := -1, isInt := false })]) =
      .error (.invalid "confidence_score") := by
  unfold ExtractedPrescription.ofJs at h
  split at h
  case _ =>
    simp only [exBind_ok] at h
    obtain ⟨dt, hdt, pt, hpt, pn, hpn, bc, hbc, idt, hidt, pat, hpat, doc,
      hdoc, hosp, hhosp, diag, hdiag, meds, hmeds, dsig, hdsig, hand, hhand,
      nts, hnts, ti, hti, em, hem, cs, hcs, oc, hoc, lle, hlle, ot, hot,
      hp⟩ := h
    simp only [pure, Except.pure, Except.ok.injEq] at hp
    subst hp
    refine ⟨⟨vConfidence_bounds hcs, vConfidence_bounds hoc,
      vOptSig_bounds hdsig, vDoctor_bounds hdoc, vOptHand_bounds hhand⟩,
      ?_, ?_, rfl⟩
    · intro hnull
      rw [hnull] at hmeds
      unfold vMedications at hmeds
      cases hmeds
    · intro hnone
      rw [hnone] at hmeds
      unfold vMedications at hmeds
      simp only [Except.ok.injEq] at hmeds
      subst hmeds
      rfl
  case _ => cases h

/-- Witness for C6: a response with `confidence_score = 0.85` validates to a
    record whose confidence fields are all in range. -/
theorem schema_validation_invariants_witness :
    ExtractedPrescription.ofJs (Js.obj
      [("document_type", Js.str "prescription"),
       ("confidence_score",
        Js.num { mantissa := 85, exp10 := -2, isInt := false })]) =
      .ok { document_type := "prescription",
            confidence_score := some (mkRat 17 20) } ∧
    confidencesInRange { document_type := "prescription",
                         confidence_score := some (mkRat 17 20) } := by
  have h := schema_validation_invariants (Js.obj
      [("document_type", Js.str "prescription"),
       ("confidence_score",
        Js.num { mantissa := 85, exp10 := -2, isInt := false })])
    { document_type := "prescription", confidence_score := some (mkRat 17 20) }
    rfl
  exact ⟨rfl, h.1⟩

/-- **C5 counterexample.** On a response whose fenced block is *not* tagged
    `json`, the code parses the block's interior anyway (the tag is optional
    in its pattern), while the algorithm the claim describes — fenced block
    tagged as JSON, else first brace span — fails: the two disagree. -/
theorem json_tag_optional_cx :
    extract_json_from_response untaggedFenceResponse =
      .ok (Js.obj [("a", Js.num { mantissa := 1 })]) ∧
    extractJsonClaimed untaggedFenceResponse = .error .jsonDecode ∧
    extract_json_from_response untaggedFenceResponse ≠
      extractJsonClaimed untaggedFenceResponse := by
  have h1 : extract_json_from_response untaggedFenceResponse =
      .ok (Js.obj [("a", Js.num { mantissa := 1 })]) := rfl
  have h2 : extractJsonClaimed untaggedFenceResponse = .error .jsonDecode := rfl
  refine ⟨h1, h2, ?_⟩
  rw [h1, h2]
  intro h
  cases h

/-- **C5 (amended).** The structured-response parser first searches for a
    fenced code block *optionally* tagged `json` and parses its interior;
    only if no such block is found does it search the span from the first
    opening brace to the last closing brace and parse that; if neither search
    matches it fails with the no-structured-data error (a candidate that is
    found but is not parseable JSON fails with a JSON decode error instead);
    and the round-trip response containing the tagged block parses to a
    record with empty line items and a resolved document type. -/
theorem json_extraction_order_amended (text : String) (cap : List Char) :
    (findFencedBlock text.data = some cap →
      extract_json_from_response text =
        match Js.loads (String.mk cap) with
        | some j => .ok j
        | none => .error .jsonDecode) ∧
    (findFencedBlock text.data = none → findBraceSpan text.data = some cap →
      extract_json_from_response text =
        match Js.loads (String.mk cap) with
        | some j => .ok j
        | none => .error .jsonDecode) ∧
    (findFencedBlock text.data = none → findBraceSpan text.data = none →
      extract_json_from_response text = .error .noStructuredData) ∧
    ((LLMExtractor.extract
        { response := .ok roundTripResponse, elapsed := 0 }).1.medications = [] ∧
      (LLMExtractor.extract
        { response := .ok roundTripResponse, elapsed := 0 }).1.document_type =
          "prescription" ∧
      "prescription" ≠ "unknown") := by
  refine ⟨?_, ?_, ?_, rfl, rfl, by decide⟩
  · intro h
    simp only [extract_json_from_response, h]
  · intro h h'
    simp only [extract_json_from_response, h, h']
  · intro h h'
    simp only [extract_json_from_response, h, h']

/-- Witness for C5 (amended): the round-trip response's fenced block is found
    and its interior parses to the expected object. -/
theorem json_extraction_order_amended_witness :
    extract_json_from_response roundTripResponse =
      .ok (Js.obj [("document_type", Js.str "prescription"),
                   ("medications", Js.arr [])]) := by
  have h := (json_extraction_order_amended roundTripResponse
    ("\x7b\"document_type\":\"prescription\",\"medications\":[]\x7d".data)).1 rfl
  rw [h]
  rfl

/-- Witness for C7 (amended): the concrete line, where the cleaned name has
    length ≥ 2 and is indeed the produced name. -/
theorem med_line_parse_amended_witness :
    OCRTextParser.parse_medication_line "7. Aspirin 100mg" =
      some { name := "Aspirin", dosage := some "100mg", quantity := none,
             frequency := none, duration := none, instructions := none,
             is_handwritten := none } ∧
    ({ name := "Aspirin", dosage := some "100mg", quantity := none,
       frequency := none, duration := none, instructions := none,
       is_handwritten := none } : MedicationItem).name =
      String.mk (medCleanedName (pyStrip (stripBulletMarker
        (stripEnumMarker ("7. Aspirin 100mg" : String).data)))) := by
  have h := (med_line_parse_amended.2.2 "7. Aspirin 100mg"
    { name := "Aspirin", dosage := some "100mg", quantity := none,
      frequency := none, duration := none, instructions := none,
      is_handwritten := none } (by decide)).1 (by decide)
  exact ⟨by decide, h⟩

end Claims

end DocuVault
